import Mathlib

/-!
Shallow embedding of the Minimalist HomeAssistant integration
(custom_components/minimalist_ui: __init__.py, base.py, const.py, enums.py)
and proofs about it.

Filesystem paths are modelled as lists of path components; the host
filesystem is a pair of (partial) functions giving file contents and
directory presence.  Python exceptions caught by the code are modelled
as explicit error values threaded through each step, together with the
partial state reached when the exception is raised.
-/

/-- Filesystem path, as a list of components. -/
abbrev FPath : Type := List String

/-- Boolean path-prefix test: pathLe a b holds when a is a prefix of b,
i.e. b denotes a location inside (or equal to) the directory a. -/
def pathLe : FPath → FPath → Bool
  | [], _ => true
  | _ :: _, [] => false
  | a :: as, b :: bs => a == b && pathLe as bs

/-- Split a character list on the slash character (helper for strToPath). -/
def splitSlash : List Char → List Char → List (List Char)
  | [], cur => [cur.reverse]
  | c :: rest, cur =>
      if c = '/' then cur.reverse :: splitSlash rest [] else splitSlash rest (c :: cur)

/-- Turn a slash-separated relative path string (as used with
hass.config.path) into a component list, dropping empty components. -/
def strToPath (s : String) : FPath :=
  ((splitSlash s.toList []).map (fun l => String.mk l)).filter (fun t => t ≠ "")

/-- Host filesystem state: file contents and directory presence. -/
structure FS where
  files : FPath → Option String
  dirs : FPath → Bool

/-- Existence test: os.path.exists, true for a file or a directory. -/
def fsExists (fs : FS) (p : FPath) : Bool :=
  (fs.files p).isSome || fs.dirs p

/-- Write one file (shutil.copy2 destination effect / file write). -/
def setFile (fs : FS) (p : FPath) (c : String) : FS :=
  { fs with files := fun q => if q = p then some c else fs.files q }

/-- Recursive directory removal: shutil.rmtree(d, ignore_errors=True)
removes every file and directory at or below d and never raises. -/
def rmtree (fs : FS) (d : FPath) : FS :=
  { files := fun q => if pathLe d q then none else fs.files q,
    dirs := fun q => if pathLe d q then false else fs.dirs q }

/-- Directory creation: os.makedirs(d, exist_ok=True) creates d and all
of its parent directories. -/
def makedirs (fs : FS) (d : FPath) : FS :=
  { fs with dirs := fun q => if pathLe q d then true else fs.dirs q }

/-- Recursive directory copy with dirs_exist_ok=True (shutil.copytree on
an existing source directory): every source file at src ++ rel is copied
to dst ++ rel, overwriting; destination entries with no source
counterpart are kept. -/
def copytreeOk (fs : FS) (src dst : FPath) : FS :=
  { files := fun q =>
      if pathLe dst q ∧ q ≠ dst then
        match fs.files (src ++ List.drop dst.length q) with
        | some c => some c
        | none => fs.files q
      else fs.files q,
    dirs := fun q =>
      if q = dst ∨ (pathLe dst q ∧ fs.dirs (src ++ List.drop dst.length q)) then true
      else fs.dirs q }

/-- Python exception values raised inside the integration and caught at
the step boundaries. -/
inductive PyExc
  | keyError
  | fileNotFound
  | hostError
deriving DecidableEq, Repr

/-- ConfigurationType from enums.py. -/
inductive ConfigurationType
  | YAML
  | CONFIG_ENTRY
deriving DecidableEq, Repr

/-- muiDisabledReason from enums.py. -/
inductive MuiDisabledReason
  | RATE_LIMIT
  | INVALID_TOKEN
  | LOAD_MUI
deriving DecidableEq, Repr

/-- Python values stored as attributes of the configuration record. -/
inductive PyVal
  | str : String → PyVal
  | bool : Bool → PyVal
  | pynone : PyVal
  | dict : List (String × PyVal) → PyVal
  | ctype : ConfigurationType → PyVal
  | entryRef : Nat → PyVal
deriving Repr

/-- Python truthiness of a stored attribute value. -/
def truthy : PyVal → Bool
  | .str s => s ≠ ""
  | .bool b => b
  | .pynone => false
  | .dict l => !l.isEmpty
  | .ctype _ => true
  | .entryRef _ => true

/-- Python f-string rendering of a stored attribute value, as used in
hass.config.path interpolation of configuration.theme_path. -/
def pyFormat : PyVal → String
  | .str s => s
  | .bool true => "True"
  | .bool false => "False"
  | .pynone => "None"
  | .dict _ => "dict"
  | .ctype .YAML => "ConfigurationType.YAML"
  | .ctype .CONFIG_ENTRY => "ConfigurationType.CONFIG_ENTRY"
  | .entryRef n => toString n

/-- Attribute dictionary of a Python object: insertion-ordered key/value
list; setting an existing key replaces it in place, a new key appends. -/
def setA (l : List (String × PyVal)) (k : String) (v : PyVal) : List (String × PyVal) :=
  if l.any (fun e => e.1 = k) then
    l.map (fun e => if e.1 = k then (k, v) else e)
  else
    l ++ [(k, v)]

/-- MuiConfiguration from base.py, modelled by its attribute dictionary
(Python instance __dict__). -/
structure MuiConfiguration where
  attrs : List (String × PyVal)

/-- setattr on the configuration record. -/
def MuiConfiguration.setattr (c : MuiConfiguration) (k : String) (v : PyVal) : MuiConfiguration :=
  { attrs := setA c.attrs k v }

/-- getattr on the configuration record; all attributes read by the code
are present from the dataclass defaults, so a missing key never occurs
on the executed paths and is mapped to the Python None value. -/
def MuiConfiguration.getattr (c : MuiConfiguration) (k : String) : PyVal :=
  (c.attrs.lookup k).getD .pynone

/-- Dataclass field defaults of MuiConfiguration (base.py lines 50-68,
with the constants of const.py substituted). -/
def muiConfigurationInit : MuiConfiguration :=
  { attrs :=
      [("config", .dict []),
       ("config_entry", .pynone),
       ("config_type", .pynone),
       ("sidepanel_enabled", .bool true),
       ("sidepanel_icon", .str "mdi:monitor-dashboard"),
       ("sidepanel_title", .str "Minimalist UI"),
       ("adaptive_ui_enabled", .bool true),
       ("adaptive_ui_icon", .str "mdi:monitor-dashboard"),
       ("adaptive_ui_title", .str "Minimalist UI"),
       ("theme_path", .str "themes/"),
       ("theme", .str "minimalist-desktop"),
       ("plugin_path", .str "www/community/"),
       ("include_other_cards", .bool false),
       ("language", .str "English (GB)"),
       ("token", .pynone)] }

/-- Merge a key/value list into the record, one setattr per key in
order (the loop body of update_from_dict). -/
def applyDict (c : MuiConfiguration) (l : List (String × PyVal)) : MuiConfiguration :=
  l.foldl (fun c e => c.setattr e.1 e.2) c

/-- update_from_dict (base.py lines 78-84): raise when the argument is
not a dict, otherwise set every provided key as an attribute. -/
def MuiConfiguration.update_from_dict (c : MuiConfiguration) (data : PyVal) :
    Except String MuiConfiguration :=
  match data with
  | .dict l => .ok (applyDict c l)
  | _ => .error "Configuration is not valid."

/-- MuiSystem from base.py. -/
structure MuiSystem where
  disabled_reason : Option MuiDisabledReason
  running : Bool
deriving DecidableEq, Repr

/-- MuiSystem.disabled property. -/
def MuiSystem.disabled (s : MuiSystem) : Bool :=
  s.disabled_reason.isSome

/-- Observable effects on the HomeAssistant host object. -/
structure HostState where
  firedEvents : List String
  registeredServices : List (String × String)
  dashboards : List String
  panels : List String
  extraJsUrls : List String
  staticPaths : List FPath
  logs : List String
  reauthStarted : Bool

/-- Config entry handed to async_setup_entry, reduced to the parts the
integration reads or writes. -/
structure EntryLite where
  source_import : Bool
  data : List (String × PyVal)
  options : List (String × PyVal)

/-- Whole mutable state of the integration: the MuiBase class
attributes (configuration, system), the filesystem, the host object and
the state/reason fields the code writes on the config entry. -/
structure MuiState where
  configuration : MuiConfiguration
  system : MuiSystem
  fs : FS
  host : HostState
  entryState : Option String
  entryReason : Option String

/-- disable_mui (base.py lines 108-120): no-op when the reason is
already set; otherwise record the reason, and for INVALID_TOKEN also
put the config entry into SETUP_ERROR and start a reauth flow. -/
def disable_mui (s : MuiState) (reason : MuiDisabledReason) : MuiState :=
  if s.system.disabled_reason = some reason then s
  else
    let s1 := { s with system := { s.system with disabled_reason := some reason } }
    if reason = MuiDisabledReason.INVALID_TOKEN then
      { s1 with entryState := some "SETUP_ERROR",
                entryReason := some "Authentiation Failed",
                host := { s1.host with reauthStarted := true } }
    else s1

/-- enable_mui (base.py lines 122-126): clear the disabled reason when
one is set. -/
def enable_mui (s : MuiState) : MuiState :=
  if s.system.disabled_reason ≠ none then
    { s with system := { s.system with disabled_reason := none },
             host := { s.host with logs := s.host.logs ++ ["MUI is enabled"] } }
  else s

/-- Static inputs of one integration run: the integration directory,
the HomeAssistant configuration root, and whether each host API call
made during setup raises. -/
structure Env where
  intDir : FPath
  cfgRoot : FPath
  addExtraJsRaises : Bool
  registerStaticPathRaises : Bool
  lovelacePanelRaises : Bool
  removePanelRaises : Bool

/-- Integration-relative path: a location inside integration.file_path. -/
def intP (env : Env) (rel : String) : FPath :=
  env.intDir ++ strToPath rel

/-- Configuration-root-relative path: hass.config.path(rel). -/
def cfgP (env : Env) (rel : String) : FPath :=
  env.cfgRoot ++ strToPath rel

/-- Destination directory minimalist_ui/configs. -/
def configsP (env : Env) : FPath := cfgP env "minimalist_ui/configs"

/-- Destination directory minimalist_ui/addons. -/
def addonsP (env : Env) : FPath := cfgP env "minimalist_ui/addons"

/-- Destination directory minimalist_ui/dashboard. -/
def dashDirP (env : Env) : FPath := cfgP env "minimalist_ui/dashboard"

/-- Destination directory minimalist_ui/custom_actions. -/
def caDirP (env : Env) : FPath := cfgP env "minimalist_ui/custom_actions"

/-- Destination dashboard file minimalist_ui/dashboard/ui.yaml. -/
def uiDstP (env : Env) : FPath := cfgP env "minimalist_ui/dashboard/ui.yaml"

/-- Destination custom actions file minimalist_ui/custom_actions/custom_actions.yaml. -/
def caDstP (env : Env) : FPath := cfgP env "minimalist_ui/custom_actions/custom_actions.yaml"

/-- Button card templates directory (the templates_dir property). -/
def templatesDirP (env : Env) : FPath := env.intDir ++ ["__ui_minimalist__", "mui_templates"]

/-- Bundled default translation file. -/
def defaultSrcP (env : Env) : FPath := intP env "dashboard/translations/default.yaml"

/-- Destination of the default translation file. -/
def defaultDstP (env : Env) : FPath := templatesDirP env ++ ["default.yaml"]

/-- Bundled example dashboard file. -/
def uiSrcP (env : Env) : FPath := intP env "dashboard/ui.yaml"

/-- Bundled example custom actions file. -/
def caSrcP (env : Env) : FPath := intP env "dashboard/custom_actions.yaml"

/-- Bundled translation file of the chosen language code. -/
def transSrcP (env : Env) (lang : String) : FPath :=
  env.intDir ++ ["dashboard", "translations", lang ++ ".yaml"]

/-- Destination of the chosen language file. -/
def langDstP (env : Env) : FPath := templatesDirP env ++ ["language.yaml"]

/-- Bundled template card directory. -/
def muiTemplSrcP (env : Env) : FPath := intP env "dashboard/mui_templates"

/-- Destination of the user custom actions inside the templates dir. -/
def caTplDstP (env : Env) : FPath := templatesDirP env ++ ["custom_actions"]

/-- Bundled theme files directory. -/
def themeSrcP (env : Env) : FPath := intP env "dashboard/themefiles"

/-- Theme destination: hass.config.path of the theme_path attribute
rendered into an f-string with a trailing slash. -/
def themeDstP (env : Env) (c : MuiConfiguration) : FPath :=
  env.cfgRoot ++ strToPath (pyFormat (c.getattr "theme_path") ++ "/")

/-- LANGUAGES lookup (const.py line 20): the only key is
English (GB), mapped to en; any other attribute value raises KeyError. -/
def lookupLanguage : PyVal → Except PyExc String
  | .str s => if s = "English (GB)" then .ok "en" else .error .keyError
  | _ => .error .keyError

/-- Guarded copytree: shutil.copytree raises when the source directory
does not exist. -/
def copytreeE (fs : FS) (src dst : FPath) : Option PyExc × FS :=
  if fs.dirs src then (none, copytreeOk fs src dst) else (some .fileNotFound, fs)

/-- Error-propagating sequencing of filesystem steps: an exception
stops the pipeline with the filesystem reached at that point, success
feeds the new filesystem to the continuation. -/
def fsThen (r : Option PyExc × FS) (f : FS → Option PyExc × FS) : Option PyExc × FS :=
  match r with
  | (some e, fsE) => (some e, fsE)
  | (none, fs1) => f fs1

/-- shutil.copy2: raises when the source file is missing, otherwise
writes the source content at the destination. -/
def copy2 (fs : FS) (src dst : FPath) : Option PyExc × FS :=
  match fs.files src with
  | none => (some PyExc.fileNotFound, fs)
  | some c => (none, setFile fs dst c)

/-- Guarded copy used for the dashboard and custom-actions files: copy
only when the destination does not already exist. -/
def copyIfAbsent (fs : FS) (src dst : FPath) : Option PyExc × FS :=
  if fsExists fs dst then (none, fs) else copy2 fs src dst

/-- Cleanup and directory-creation prefix of configure_mui (base.py
lines 271-279): remove configs and addons recursively, then create the
dashboard and custom_actions directories. -/
def mk4 (env : Env) (g : FS) : FS :=
  makedirs (makedirs (rmtree (rmtree g (configsP env)) (addonsP env)) (dashDirP env))
    (caDirP env)

/-- Cleanup and directory-creation prefix of configure_mui followed by
the creation of the templates directory (base.py lines 271-282). -/
def mk5 (env : Env) (g : FS) : FS := makedirs (mk4 env g) (templatesDirP env)

/-- Copy sequence of configure_mui after the language lookup (base.py
lines 287-344): default translation copy, guarded dashboard copy,
guarded custom-actions copy, chosen language copy, and the three
copytree calls. -/
def installTail (env : Env) (c : MuiConfiguration) (lang : String) (fs5 : FS) :
    Option PyExc × FS :=
  fsThen (copy2 fs5 (defaultSrcP env) (defaultDstP env)) fun fs6 =>
  fsThen (if truthy (c.getattr "sidepanel_enabled")
          then copyIfAbsent fs6 (uiSrcP env) (uiDstP env)
          else (none, fs6)) fun fs7 =>
  fsThen (copyIfAbsent fs7 (caSrcP env) (caDstP env)) fun fs8 =>
  fsThen (copy2 fs8 (transSrcP env lang) (langDstP env)) fun fs9 =>
  fsThen (copytreeE fs9 (muiTemplSrcP env) (templatesDirP env)) fun fs10 =>
  fsThen (copytreeE fs10 (caDirP env) (caTplDstP env)) fun fs11 =>
  copytreeE fs11 (themeSrcP env) (themeDstP env c)

/-- Filesystem pipeline of configure_mui (base.py lines 269-344), in
source order: cleanup of configs and addons, directory creation, the
dashboard-directory existence check (line 281), the language lookup
(line 285) and the copy sequence.  Returns the first exception together
with the filesystem reached at that point. -/
def installFS (env : Env) (c : MuiConfiguration) (fs0 : FS) : Option PyExc × FS :=
  if fsExists (mk4 env fs0) (dashDirP env) then
    match lookupLanguage (c.getattr "language") with
    | .error e => (some e, mk5 env fs0)
    | .ok lang => installTail env c lang (mk5 env fs0)
  else
    (none, mk4 env fs0)

/-- Body of configure_mui, i.e. the content of its try block: the
filesystem pipeline, then firing minimalist_ui_reload on the host bus
and registering the minimalist_ui.reload service. -/
def configure_mui_body (env : Env) (s : MuiState) : Option PyExc × MuiState :=
  match installFS env s.configuration s.fs with
  | (some e, fsE) => (some e, { s with fs := fsE })
  | (none, fsOk) =>
    (none,
      { s with
        fs := fsOk,
        host := { s.host with
                  firedEvents := s.host.firedEvents ++ ["minimalist_ui_reload"],
                  registeredServices :=
                    s.host.registeredServices ++ [("minimalist_ui", "reload")] } })

/-- configure_mui (base.py lines 265-361): run the body; any exception
is caught, logged, turns the system into Disabled(LOAD_MUI), and makes
the step return False. -/
def configure_mui (env : Env) (s : MuiState) : Bool × MuiState :=
  match configure_mui_body env s with
  | (some _, s1) =>
      (false, disable_mui { s1 with host := { s1.host with logs := s1.host.logs ++ ["exception"] } }
        MuiDisabledReason.LOAD_MUI)
  | (none, s1) => (true, s1)

/-- Fixed dependency resource list of configure_plugins. -/
def dependency_resource_paths : List String :=
  ["button-card", "light-entity-card", "lovelace-card-mod", "lovelace-auto-entities",
   "mini-graph-card", "mini-media-player", "my-cards", "simple-weather-card",
   "lovelace-layout-card", "lovelace-state-switch", "weather-radar-card"]

/-- Log lines produced by the dependency presence loop of
configure_plugins: purely informational, one per missing (or, with
include_other_cards, per unexpectedly present) resource directory. -/
def pluginCheckLogs (env : Env) (c : MuiConfiguration) (fs : FS) : List String :=
  (if fsExists fs (cfgP env "custom_components/browser_mod") then []
   else ["browser mod is not installed"]) ++
  dependency_resource_paths.foldr
    (fun p acc =>
      (if truthy (c.getattr "include_other_cards") then
        (if fsExists fs (cfgP env ("www/community/" ++ p)) then
          [p ++ " is already installed"] else [])
      else
        (if fsExists fs (cfgP env ("www/community/" ++ p)) then []
         else [p ++ " is not installed"])) ++ acc) []

/-- Body of configure_plugins (base.py lines 157-199): presence checks
that only log, then add_extra_js_url for each dependency when
include_other_cards is set, then register_static_path. -/
def configure_plugins_body (env : Env) (s : MuiState) : Option PyExc × MuiState :=
  let s1 := { s with host := { s.host with
    logs := s.host.logs ++ pluginCheckLogs env s.configuration s.fs } }
  if truthy (s.configuration.getattr "include_other_cards") ∧ env.addExtraJsRaises then
    (some .hostError, s1)
  else
    let s2 :=
      if truthy (s.configuration.getattr "include_other_cards") then
        { s1 with host := { s1.host with
          extraJsUrls := s1.host.extraJsUrls ++
            dependency_resource_paths.map
              (fun c => "/minimalist_ui/ext_dependencies/" ++ c ++ "/" ++ c ++ ".js") } }
      else s1
    if env.registerStaticPathRaises then (some .hostError, s2)
    else
      (none, { s2 with host := { s2.host with
        staticPaths := s2.host.staticPaths ++ [intP env "ext_dependencies"] } })

/-- configure_plugins (base.py lines 153-206): run the body; any
exception is caught, logged, disables the system with LOAD_MUI and
makes the step return False. -/
def configure_plugins (env : Env) (s : MuiState) : Bool × MuiState :=
  match configure_plugins_body env s with
  | (some _, s1) =>
      (false, disable_mui { s1 with host := { s1.host with logs := s1.host.logs ++ ["exception"] } }
        MuiDisabledReason.LOAD_MUI)
  | (none, s1) => (true, s1)

/-- Body of configure_dashboard (base.py lines 233-256): with the
sidepanel enabled, create the LovelaceYAML dashboard and register the
panel; otherwise remove a previously registered panel when present. -/
def configure_dashboard_body (env : Env) (s : MuiState) : Option PyExc × MuiState :=
  if truthy (s.configuration.getattr "sidepanel_enabled") then
    if env.lovelacePanelRaises then (some .hostError, s)
    else
      (none, { s with host := { s.host with
        dashboards := s.host.dashboards ++ ["minimalist-ui"],
        panels := s.host.panels ++ ["minimalist-ui"] } })
  else
    if s.host.dashboards.contains "minimalist-ui" then
      if env.removePanelRaises then (some .hostError, s)
      else
        (none, { s with host := { s.host with
          panels := s.host.panels.filter (fun p => p ≠ "minimalist-ui") } })
    else (none, s)

/-- configure_dashboard (base.py lines 208-263): run the body; any
exception is caught, logged, disables the system with LOAD_MUI and
makes the step return False. -/
def configure_dashboard (env : Env) (s : MuiState) : Bool × MuiState :=
  match configure_dashboard_body env s with
  | (some _, s1) =>
      (false, disable_mui { s1 with host := { s1.host with logs := s1.host.logs ++ ["exception"] } }
        MuiDisabledReason.LOAD_MUI)
  | (none, s1) => (true, s1)

/-- async_startup (__init__.py lines 69-81): the three steps in order
with short-circuiting on the first False, then enable_mui, returning
not system.disabled. -/
def async_startup (env : Env) (s : MuiState) : Bool × MuiState :=
  match configure_mui env s with
  | (false, s1) => (false, s1)
  | (true, s1) =>
    match configure_plugins env s1 with
    | (false, s2) => (false, s2)
    | (true, s2) =>
      match configure_dashboard env s2 with
      | (false, s3) => (false, s3)
      | (true, s3) =>
        let s4 := enable_mui s3
        (!s4.system.disabled, s4)

/-- Yaml-config branch of async_initialize_integration (__init__.py
lines 29-40).  An error value models an early return from the function;
the dict literal passed to update_from_dict puts config_type first,
then the keys of config[DOMAIN], then the config key, later occurrences
of a key overriding earlier ones exactly as in a Python dict literal. -/
def initConfigStage (s : MuiState)
    (config : Option (List (String × List (String × PyVal)))) :
    Except (Bool × MuiState) MuiState :=
  match config with
  | none => .ok s
  | some cfg =>
    match cfg.lookup "minimalist_ui" with
    | none => .error (true, s)
    | some dom =>
      match s.configuration.getattr "config_type" with
      | .ctype ConfigurationType.CONFIG_ENTRY => .error (true, s)
      | _ =>
        let c1 := applyDict s.configuration
          ([("config_type", PyVal.ctype ConfigurationType.YAML)] ++ dom ++
           [("config", PyVal.dict dom)])
        .ok { s with configuration := c1 }

/-- Config-entry branch of async_initialize_integration (__init__.py
lines 42-57): an imported entry is scheduled for removal and the call
returns False; otherwise the entry reference, provenance and the entry
data and options are merged into the configuration record. -/
def initEntryStage (s : MuiState) (entry : Option EntryLite) :
    Except (Bool × MuiState) MuiState :=
  match entry with
  | none => .ok s
  | some e =>
    if e.source_import then .error (false, s)
    else
      let c1 := applyDict s.configuration
        ([("config_entry", PyVal.entryRef 0),
          ("config_type", PyVal.ctype ConfigurationType.CONFIG_ENTRY)] ++
         e.data ++ e.options)
      .ok { s with configuration := c1 }

/-- async_initialize_integration (__init__.py lines 21-89).  The
configuration and system records are class attributes of MuiBase and
therefore survive across initializations; the config argument is the
host YAML configuration (domain key mapped to an option dictionary),
the entry argument the config entry of a UI-based setup. -/
def async_initialize_integration (env : Env) (s : MuiState)
    (config : Option (List (String × List (String × PyVal))))
    (entry : Option EntryLite) : Bool × MuiState :=
  let s0 := enable_mui s
  match initConfigStage s0 config with
  | .error r => r
  | .ok s1 =>
    match initEntryStage s1 entry with
    | .error r => r
    | .ok s2 =>
      let s3 := { s2 with system := { s2.system with running := true } }
      match async_startup env s3 with
      | (false, s4) => (false, s4)
      | (true, s4) => (true, enable_mui s4)

/-- reload_configuration (base.py lines 363-372): when the user custom
actions path exists, re-copy it into the templates directory with
shutil.copytree, then fire minimalist_ui_reload on the host bus. The
function has no exception handler: when the path exists but is not a
directory the tree copy raises, the exception propagates to the
caller, and the event on line 372 is never fired. -/
def reload_configuration (env : Env) (s : MuiState) : Option PyExc × MuiState :=
  if fsExists s.fs (caDirP env) then
    match copytreeE s.fs (caDirP env) (caTplDstP env) with
    | (some e, fs1) => (some e, { s with fs := fs1 })
    | (none, fs1) =>
        (none, { s with fs := fs1, host := { s.host with
          firedEvents := s.host.firedEvents ++ ["minimalist_ui_reload"] } })
  else
    (none, { s with host := { s.host with
      firedEvents := s.host.firedEvents ++ ["minimalist_ui_reload"] } })

/-! Helper lemmas about paths and attribute dictionaries. -/

theorem pathLe_iff (a b : FPath) : pathLe a b = true ↔ ∃ t, b = a ++ t := by
  induction a generalizing b with
  | nil => simp [pathLe]
  | cons x xs ih =>
    cases b with
    | nil => simp [pathLe]
    | cons y ys =>
      simp only [pathLe, Bool.and_eq_true, beq_iff_eq, ih]
      constructor
      · rintro ⟨rfl, t, rfl⟩; exact ⟨t, rfl⟩
      · rintro ⟨t, h⟩
        injection h with h1 h2
        exact ⟨h1.symm, t, h2⟩

theorem pathLe_refl (a : FPath) : pathLe a a = true := by
  rw [pathLe_iff]; exact ⟨[], by simp⟩

theorem pathLe_of_append (a t : FPath) : pathLe a (a ++ t) = true := by
  rw [pathLe_iff]; exact ⟨t, rfl⟩

theorem pathLe_antisymm {a b : FPath} (h1 : pathLe a b = true) (h2 : pathLe b a = true) :
    a = b := by
  rw [pathLe_iff] at h1 h2
  obtain ⟨t, rfl⟩ := h1
  obtain ⟨u, hu⟩ := h2
  have hlen := congrArg List.length hu
  simp only [List.length_append] at hlen
  have ht : t = [] := List.eq_nil_of_length_eq_zero (by omega)
  simp [ht]

theorem pathLe_total_of_common {a b p : FPath} (ha : pathLe a p = true)
    (hb : pathLe b p = true) : pathLe a b = true ∨ pathLe b a = true := by
  induction a generalizing b p with
  | nil => left; simp [pathLe]
  | cons x xs ih =>
    cases p with
    | nil => simp [pathLe] at ha
    | cons y ys =>
      cases b with
      | nil => right; simp [pathLe]
      | cons z zs =>
        simp only [pathLe, Bool.and_eq_true, beq_iff_eq] at ha hb ⊢
        obtain ⟨rfl, ha2⟩ := ha
        obtain ⟨rfl, hb2⟩ := hb
        rcases ih ha2 hb2 with h | h
        · left; exact ⟨rfl, h⟩
        · right; exact ⟨rfl, h⟩

theorem pathLe_append_drop {a b : FPath} (h : pathLe a b = true) :
    a ++ List.drop a.length b = b := by
  rw [pathLe_iff] at h
  obtain ⟨t, rfl⟩ := h
  simp

theorem pathLe_append_cancel (d a b : FPath) :
    pathLe (d ++ a) (d ++ b) = pathLe a b := by
  induction d with
  | nil => rfl
  | cons x xs ih => simp [pathLe, ih]

theorem pathLe_cons_disjoint {d : FPath} {x y : String} (hxy : x ≠ y) (a b p : FPath)
    (h1 : pathLe (d ++ x :: a) p = true) (h2 : pathLe (d ++ y :: b) p = true) : False := by
  rcases pathLe_total_of_common h1 h2 with h | h
  · rw [pathLe_append_cancel] at h
    simp [pathLe] at h
    exact hxy h.1
  · rw [pathLe_append_cancel] at h
    simp [pathLe] at h
    exact hxy h.1.symm

theorem pathLe_trans {a b c : FPath} (h1 : pathLe a b = true) (h2 : pathLe b c = true) :
    pathLe a c = true := by
  rw [pathLe_iff] at h1 h2 ⊢
  obtain ⟨t, rfl⟩ := h1
  obtain ⟨u, rfl⟩ := h2
  exact ⟨t ++ u, by simp⟩

theorem lookup_cons_self (k : String) (v : PyVal) (es : List (String × PyVal)) :
    List.lookup k ((k, v) :: es) = some v := by
  simp [List.lookup]

theorem lookup_cons_ne (k k' : String) (v : PyVal) (es : List (String × PyVal))
    (h : k' ≠ k) : List.lookup k' ((k, v) :: es) = List.lookup k' es := by
  simp [List.lookup, (by simpa using h : (k' == k) = false)]

theorem lookup_mapReplace_same (l : List (String × PyVal)) (k : String) (v : PyVal)
    (h : l.any (fun e => e.1 = k) = true) :
    List.lookup k (l.map (fun e => if e.1 = k then (k, v) else e)) = some v := by
  induction l with
  | nil => simp at h
  | cons e es ih =>
    obtain ⟨e1, e2⟩ := e
    by_cases he : e1 = k
    · subst he
      simp only [List.map_cons, if_pos rfl]
      exact lookup_cons_self e1 v _
    · have hes : es.any (fun e => e.1 = k) = true := by
        simp only [List.any_cons, Bool.or_eq_true, decide_eq_true_eq] at h
        exact h.resolve_left he
      simp only [List.map_cons, if_neg he]
      rw [lookup_cons_ne e1 k e2 _ (Ne.symm he)]
      exact ih hes

theorem lookup_mapReplace_other (l : List (String × PyVal)) (k : String) (v : PyVal)
    (k' : String) (hk : k' ≠ k) :
    List.lookup k' (l.map (fun e => if e.1 = k then (k, v) else e)) = List.lookup k' l := by
  induction l with
  | nil => rfl
  | cons e es ih =>
    obtain ⟨e1, e2⟩ := e
    by_cases he : e1 = k
    · subst he
      rw [List.map_cons, if_pos (rfl : (e1, e2).1 = e1),
        lookup_cons_ne e1 k' v _ hk, lookup_cons_ne e1 k' e2 _ hk]
      exact ih
    · simp only [List.map_cons, if_neg he]
      by_cases h3 : k' = e1
      · subst h3
        rw [lookup_cons_self, lookup_cons_self]
      · rw [lookup_cons_ne e1 k' e2 _ h3, lookup_cons_ne e1 k' e2 _ h3]
        exact ih

theorem lookup_append_single (l : List (String × PyVal)) (k : String) (v : PyVal)
    (h : l.any (fun e => e.1 = k) = false) :
    List.lookup k (l ++ [(k, v)]) = some v := by
  induction l with
  | nil => exact lookup_cons_self k v []
  | cons e es ih =>
    obtain ⟨e1, e2⟩ := e
    simp only [List.any_cons, Bool.or_eq_false_iff, decide_eq_false_iff_not] at h
    simp only [List.cons_append]
    rw [lookup_cons_ne e1 k e2 _ (Ne.symm h.1)]
    exact ih (by simpa using h.2)

theorem lookup_append_single_other (l : List (String × PyVal)) (k : String) (v : PyVal)
    (k' : String) (hk : k' ≠ k) :
    List.lookup k' (l ++ [(k, v)]) = List.lookup k' l := by
  induction l with
  | nil => simpa using lookup_cons_ne k k' v [] hk
  | cons e es ih =>
    obtain ⟨e1, e2⟩ := e
    by_cases h3 : k' = e1
    · subst h3
      simp only [List.cons_append]
      rw [lookup_cons_self, lookup_cons_self]
    · simp only [List.cons_append]
      rw [lookup_cons_ne e1 k' e2 _ h3, lookup_cons_ne e1 k' e2 _ h3]
      exact ih

theorem lookup_setA_same (l : List (String × PyVal)) (k : String) (v : PyVal) :
    List.lookup k (setA l k v) = some v := by
  unfold setA
  split
  · next h => exact lookup_mapReplace_same l k v h
  · next h =>
      simp only [Bool.not_eq_true] at h
      exact lookup_append_single l k v h

theorem lookup_setA_other (l : List (String × PyVal)) (k : String) (v : PyVal)
    (k' : String) (hk : k' ≠ k) :
    List.lookup k' (setA l k v) = List.lookup k' l := by
  unfold setA
  split
  · exact lookup_mapReplace_other l k v k' hk
  · exact lookup_append_single_other l k v k' hk

theorem getattr_setattr_same (c : MuiConfiguration) (k : String) (v : PyVal) :
    (c.setattr k v).getattr k = v := by
  simp [MuiConfiguration.getattr, MuiConfiguration.setattr, lookup_setA_same]

theorem getattr_setattr_other (c : MuiConfiguration) (k : String) (v : PyVal)
    (k' : String) (hk : k' ≠ k) :
    (c.setattr k v).getattr k' = c.getattr k' := by
  simp [MuiConfiguration.getattr, MuiConfiguration.setattr, lookup_setA_other _ _ _ _ hk]

theorem applyDict_cons (c : MuiConfiguration) (e : String × PyVal)
    (es : List (String × PyVal)) :
    applyDict c (e :: es) = applyDict (c.setattr e.1 e.2) es := rfl

theorem applyDict_getattr_notMem (c : MuiConfiguration) (l : List (String × PyVal))
    (k : String) (h : k ∉ l.map Prod.fst) :
    (applyDict c l).getattr k = c.getattr k := by
  induction l generalizing c with
  | nil => rfl
  | cons e es ih =>
    simp only [List.map_cons, List.mem_cons, not_or] at h
    rw [applyDict_cons, ih _ h.2, getattr_setattr_other _ _ _ _ h.1]

theorem applyDict_getattr_mem (c : MuiConfiguration) (l : List (String × PyVal))
    (k : String) (v : PyVal) (hnd : (l.map Prod.fst).Nodup) (h : (k, v) ∈ l) :
    (applyDict c l).getattr k = v := by
  induction l generalizing c with
  | nil => simp at h
  | cons e es ih =>
    simp only [List.map_cons, List.nodup_cons] at hnd
    rcases List.mem_cons.mp h with rfl | hmem
    · rw [applyDict_cons, applyDict_getattr_notMem _ _ _ hnd.1, getattr_setattr_same]
    · rw [applyDict_cons]
      exact ih (c.setattr e.1 e.2) hnd.2 hmem

theorem enable_mui_configuration (s : MuiState) :
    (enable_mui s).configuration = s.configuration := by
  unfold enable_mui
  split <;> rfl

theorem enable_mui_fs (s : MuiState) : (enable_mui s).fs = s.fs := by
  unfold enable_mui
  split <;> rfl

/-! Concrete witness inputs used by the witness theorems below. -/

/-- Witness environment with no host API failures. -/
def envW : Env :=
  { intDir := ["ha", "custom_components", "minimalist_ui"],
    cfgRoot := ["cfg"],
    addExtraJsRaises := false,
    registerStaticPathRaises := false,
    lovelacePanelRaises := false,
    removePanelRaises := false }

/-- Witness filesystem holding all bundled integration assets. -/
def fsW : FS :=
  { files := fun p =>
      if p = defaultSrcP envW then some "defsrc"
      else if p = uiSrcP envW then some "uisrc"
      else if p = caSrcP envW then some "casrc"
      else if p = transSrcP envW "en" then some "ensrc"
      else none,
    dirs := fun p =>
      p = muiTemplSrcP envW || p = themeSrcP envW || p = envW.intDir }

/-- Witness host state with no prior effects. -/
def hostW : HostState :=
  { firedEvents := [], registeredServices := [], dashboards := [], panels := [],
    extraJsUrls := [], staticPaths := [], logs := [], reauthStarted := false }

/-- Witness integration state with the default configuration. -/
def stW : MuiState :=
  { configuration := muiConfigurationInit,
    system := { disabled_reason := none, running := false },
    fs := fsW, host := hostW, entryState := none, entryReason := none }

/-- Witness state already disabled with LOAD_MUI. -/
def stDisabledW : MuiState :=
  { stW with system := { disabled_reason := some MuiDisabledReason.LOAD_MUI, running := true } }

/-- Witness state whose configuration provenance is CONFIG_ENTRY. -/
def stEntryW : MuiState :=
  { stW with configuration :=
      muiConfigurationInit.setattr "config_type" (PyVal.ctype ConfigurationType.CONFIG_ENTRY) }

/-! Claim theorems. -/

/-- C7: for the system-status record, disabling with a reason equal to
the current disabled reason leaves the whole state unchanged (base.py
lines 111-112), and enabling always results in disabled_reason = None,
from any prior state (base.py lines 122-126). -/
theorem c7_disable_noop_enable_clears (s : MuiState) (r : MuiDisabledReason) :
    (s.system.disabled_reason = some r → disable_mui s r = s) ∧
    (enable_mui s).system.disabled_reason = none := by
  constructor
  · intro h
    unfold disable_mui
    rw [if_pos h]
  · unfold enable_mui
    split
    · rfl
    · next h =>
      push_neg at h
      exact h

/-- Witness for C7 at a concrete disabled state. -/
theorem c7_witness :
    disable_mui stDisabledW MuiDisabledReason.LOAD_MUI = stDisabledW ∧
    (enable_mui stDisabledW).system.disabled_reason = none :=
  ⟨(c7_disable_noop_enable_clears stDisabledW MuiDisabledReason.LOAD_MUI).1 rfl,
   (c7_disable_noop_enable_clears stDisabledW MuiDisabledReason.LOAD_MUI).2⟩

/-- C8: update_from_dict fails with the invalid-configuration error on
every input that is not a dict, producing no updated record, and on a
dict input merges each provided key into the record as an attribute set
to the provided value, leaving all other attributes unchanged. -/
theorem c8_update_from_dict_spec (c : MuiConfiguration) :
    (∀ v : PyVal, (∀ l, v ≠ PyVal.dict l) →
        c.update_from_dict v = Except.error "Configuration is not valid.") ∧
    (∀ l, c.update_from_dict (PyVal.dict l) = Except.ok (applyDict c l)) ∧
    (∀ (l : List (String × PyVal)) (k : String) (v : PyVal),
        (l.map Prod.fst).Nodup → (k, v) ∈ l → (applyDict c l).getattr k = v) ∧
    (∀ (l : List (String × PyVal)) (k : String),
        k ∉ l.map Prod.fst → (applyDict c l).getattr k = c.getattr k) := by
  refine ⟨fun v hv => ?_, fun l => rfl,
          fun l k v hnd hm => applyDict_getattr_mem c l k v hnd hm,
          fun l k h => applyDict_getattr_notMem c l k h⟩
  cases v with
  | dict l => exact absurd rfl (hv l)
  | str s => rfl
  | bool b => rfl
  | pynone => rfl
  | ctype t => rfl
  | entryRef n => rfl

/-- Witness for C8 at the default record, a non-dict input and a
one-key dict input. -/
theorem c8_witness :
    muiConfigurationInit.update_from_dict (PyVal.str "x") =
      Except.error "Configuration is not valid." ∧
    muiConfigurationInit.update_from_dict (PyVal.dict [("theme", PyVal.str "t")]) =
      Except.ok (applyDict muiConfigurationInit [("theme", PyVal.str "t")]) ∧
    (applyDict muiConfigurationInit [("theme", PyVal.str "t")]).getattr "theme" =
      PyVal.str "t" ∧
    (applyDict muiConfigurationInit [("theme", PyVal.str "t")]).getattr "language" =
      muiConfigurationInit.getattr "language" :=
  ⟨(c8_update_from_dict_spec muiConfigurationInit).1 (PyVal.str "x")
      (fun l h => PyVal.noConfusion h),
   (c8_update_from_dict_spec muiConfigurationInit).2.1 [("theme", PyVal.str "t")],
   (c8_update_from_dict_spec muiConfigurationInit).2.2.1 [("theme", PyVal.str "t")]
      "theme" (PyVal.str "t") (by simp) (List.mem_singleton.mpr rfl),
   (c8_update_from_dict_spec muiConfigurationInit).2.2.2 [("theme", PyVal.str "t")]
      "language" (by simp)⟩

/-- C1: when the configuration record provenance (config_type) is
CONFIG_ENTRY, a subsequent initialization with file-based YAML
configuration data returns success and leaves the configuration record
unchanged: the early return at __init__.py lines 32-33 fires before any
key is merged. -/
theorem c1_config_entry_preempts_yaml (env : Env) (s : MuiState)
    (cfg : List (String × List (String × PyVal))) (dom : List (String × PyVal))
    (hdom : cfg.lookup "minimalist_ui" = some dom)
    (h : s.configuration.getattr "config_type" =
      PyVal.ctype ConfigurationType.CONFIG_ENTRY) :
    (async_initialize_integration env s (some cfg) none).1 = true ∧
    (async_initialize_integration env s (some cfg) none).2.configuration =
      s.configuration := by
  have hc := enable_mui_configuration s
  have hstage : initConfigStage (enable_mui s) (some cfg) =
      Except.error (true, enable_mui s) := by
    unfold initConfigStage
    simp only [hdom, hc, h]
  unfold async_initialize_integration
  simp only [hstage]
  exact ⟨trivial, hc⟩

/-- Witness YAML configuration payload holding the integration domain. -/
def cfgW : List (String × List (String × PyVal)) :=
  [("minimalist_ui", [("sidepanel_enabled", PyVal.bool false)])]

/-- Witness option dictionary under the domain key of cfgW. -/
def domW : List (String × PyVal) := [("sidepanel_enabled", PyVal.bool false)]

/-- Witness for C1 at a CONFIG_ENTRY-provenance state with YAML data. -/
theorem c1_witness :
    cfgW.lookup "minimalist_ui" = some domW ∧
    stEntryW.configuration.getattr "config_type" =
      PyVal.ctype ConfigurationType.CONFIG_ENTRY ∧
    (async_initialize_integration envW stEntryW (some cfgW) none).1 = true ∧
    (async_initialize_integration envW stEntryW (some cfgW) none).2.configuration =
      stEntryW.configuration :=
  ⟨rfl, rfl,
   (c1_config_entry_preempts_yaml envW stEntryW cfgW domW rfl rfl).1,
   (c1_config_entry_preempts_yaml envW stEntryW cfgW domW rfl rfl).2⟩

/-! Helper lemmas about the lifecycle steps. -/

theorem enable_mui_clears (s : MuiState) :
    (enable_mui s).system.disabled_reason = none := by
  unfold enable_mui
  split
  · rfl
  · next h =>
    push_neg at h
    exact h

theorem disable_mui_load (s : MuiState) :
    (disable_mui s MuiDisabledReason.LOAD_MUI).system.disabled_reason =
      some MuiDisabledReason.LOAD_MUI := by
  unfold disable_mui
  split
  · next h => exact h
  · rfl

theorem configure_mui_err (env : Env) (st : MuiState)
    (h : (configure_mui_body env st).1.isSome = true) :
    configure_mui env st =
      (false,
        disable_mui
          { (configure_mui_body env st).2 with
            host := { (configure_mui_body env st).2.host with
              logs := (configure_mui_body env st).2.host.logs ++ ["exception"] } }
          MuiDisabledReason.LOAD_MUI) := by
  rcases hb : configure_mui_body env st with ⟨e, s1⟩
  rw [hb] at h
  unfold configure_mui
  rw [hb]
  cases e with
  | none => simp at h
  | some e => rfl

theorem configure_plugins_err (env : Env) (st : MuiState)
    (h : (configure_plugins_body env st).1.isSome = true) :
    configure_plugins env st =
      (false,
        disable_mui
          { (configure_plugins_body env st).2 with
            host := { (configure_plugins_body env st).2.host with
              logs := (configure_plugins_body env st).2.host.logs ++ ["exception"] } }
          MuiDisabledReason.LOAD_MUI) := by
  rcases hb : configure_plugins_body env st with ⟨e, s1⟩
  rw [hb] at h
  unfold configure_plugins
  rw [hb]
  cases e with
  | none => simp at h
  | some e => rfl

theorem configure_dashboard_err (env : Env) (st : MuiState)
    (h : (configure_dashboard_body env st).1.isSome = true) :
    configure_dashboard env st =
      (false,
        disable_mui
          { (configure_dashboard_body env st).2 with
            host := { (configure_dashboard_body env st).2.host with
              logs := (configure_dashboard_body env st).2.host.logs ++ ["exception"] } }
          MuiDisabledReason.LOAD_MUI) := by
  rcases hb : configure_dashboard_body env st with ⟨e, s1⟩
  rw [hb] at h
  unfold configure_dashboard
  rw [hb]
  cases e with
  | none => simp at h
  | some e => rfl

theorem configure_mui_false_disabled (env : Env) (st : MuiState)
    (h : (configure_mui env st).1 = false) :
    (configure_mui env st).2.system.disabled_reason = some MuiDisabledReason.LOAD_MUI := by
  rcases hb : configure_mui_body env st with ⟨e, s1⟩
  unfold configure_mui at h ⊢
  rw [hb] at h ⊢
  cases e with
  | none => simp at h
  | some e => exact disable_mui_load _

theorem configure_plugins_false_disabled (env : Env) (st : MuiState)
    (h : (configure_plugins env st).1 = false) :
    (configure_plugins env st).2.system.disabled_reason = some MuiDisabledReason.LOAD_MUI := by
  rcases hb : configure_plugins_body env st with ⟨e, s1⟩
  unfold configure_plugins at h ⊢
  rw [hb] at h ⊢
  cases e with
  | none => simp at h
  | some e => exact disable_mui_load _

theorem configure_dashboard_false_disabled (env : Env) (st : MuiState)
    (h : (configure_dashboard env st).1 = false) :
    (configure_dashboard env st).2.system.disabled_reason = some MuiDisabledReason.LOAD_MUI := by
  rcases hb : configure_dashboard_body env st with ⟨e, s1⟩
  unfold configure_dashboard at h ⊢
  rw [hb] at h ⊢
  cases e with
  | none => simp at h
  | some e => exact disable_mui_load _

theorem async_startup_mui_false (env : Env) (s : MuiState)
    (h : (configure_mui env s).1 = false) :
    async_startup env s = (false, (configure_mui env s).2) := by
  unfold async_startup
  rcases hm : configure_mui env s with ⟨b, s1⟩
  rw [hm] at h
  simp only at h
  subst h
  rfl

theorem async_startup_plugins_false (env : Env) (s s1 : MuiState)
    (hm : configure_mui env s = (true, s1))
    (h : (configure_plugins env s1).1 = false) :
    async_startup env s = (false, (configure_plugins env s1).2) := by
  rcases hp : configure_plugins env s1 with ⟨b, s2⟩
  rw [hp] at h
  simp only at h
  subst h
  unfold async_startup
  simp only [hm, hp]

theorem async_startup_dashboard_false (env : Env) (s s1 s2 : MuiState)
    (hm : configure_mui env s = (true, s1))
    (hp : configure_plugins env s1 = (true, s2))
    (h : (configure_dashboard env s2).1 = false) :
    async_startup env s = (false, (configure_dashboard env s2).2) := by
  rcases hd : configure_dashboard env s2 with ⟨b, s3⟩
  rw [hd] at h
  simp only at h
  subst h
  unfold async_startup
  simp only [hm, hp, hd]

theorem async_startup_all_true (env : Env) (s s1 s2 s3 : MuiState)
    (hm : configure_mui env s = (true, s1))
    (hp : configure_plugins env s1 = (true, s2))
    (hd : configure_dashboard env s2 = (true, s3)) :
    async_startup env s = (true, enable_mui s3) := by
  unfold async_startup
  have hnone := enable_mui_clears s3
  simp only [hm, hp, hd, MuiSystem.disabled, hnone, Option.isSome_none, Bool.not_false]

/-- Witness environment whose static-path registration raises. -/
def envStaticRaisesW : Env := { envW with registerStaticPathRaises := true }

/-- Witness state with no bundled assets on disk (configure_mui raises
when copying the default translation file). -/
def stNoAssetsW : MuiState :=
  { stW with fs := { files := fun _ => none, dirs := fun _ => false } }

/-- C2: async_startup runs configure_mui, configure_plugins and
configure_dashboard in this order, short-circuiting on the first step
that reports failure (whose failure came with Disabled(LOAD_MUI), see
the step boundary handlers); when all three succeed, the final state is
the enabled state of the third step and startup returns true with
disabled_reason = None. -/
theorem c2_startup_order_and_outcome (env : Env) (s : MuiState) :
    ((configure_mui env s).1 = false →
        async_startup env s = (false, (configure_mui env s).2) ∧
        (async_startup env s).2.system.disabled_reason = some MuiDisabledReason.LOAD_MUI) ∧
    (∀ s1, configure_mui env s = (true, s1) → (configure_plugins env s1).1 = false →
        async_startup env s = (false, (configure_plugins env s1).2) ∧
        (async_startup env s).2.system.disabled_reason = some MuiDisabledReason.LOAD_MUI) ∧
    (∀ s1 s2, configure_mui env s = (true, s1) → configure_plugins env s1 = (true, s2) →
        (configure_dashboard env s2).1 = false →
        async_startup env s = (false, (configure_dashboard env s2).2) ∧
        (async_startup env s).2.system.disabled_reason = some MuiDisabledReason.LOAD_MUI) ∧
    (∀ s1 s2 s3, configure_mui env s = (true, s1) → configure_plugins env s1 = (true, s2) →
        configure_dashboard env s2 = (true, s3) →
        async_startup env s = (true, enable_mui s3) ∧
        (async_startup env s).2.system.disabled_reason = none) := by
  refine ⟨fun h => ?_, fun s1 hm h => ?_, fun s1 s2 hm hp h => ?_,
          fun s1 s2 s3 hm hp hd => ?_⟩
  · have ha := async_startup_mui_false env s h
    exact ⟨ha, by rw [ha]; exact configure_mui_false_disabled env s h⟩
  · have ha := async_startup_plugins_false env s s1 hm h
    exact ⟨ha, by rw [ha]; exact configure_plugins_false_disabled env s1 h⟩
  · have ha := async_startup_dashboard_false env s s1 s2 hm hp h
    exact ⟨ha, by rw [ha]; exact configure_dashboard_false_disabled env s2 h⟩
  · have ha := async_startup_all_true env s s1 s2 s3 hm hp hd
    exact ⟨ha, by rw [ha]; exact enable_mui_clears s3⟩

/-- Witness for C2: the all-success run at the witness state, and a
failing first step at the asset-free state. -/
theorem c2_witness :
    async_startup envW stW =
      (true, enable_mui
        (configure_dashboard envW (configure_plugins envW (configure_mui envW stW).2).2).2) ∧
    (async_startup envW stW).2.system.disabled_reason = none ∧
    (configure_mui envW stNoAssetsW).1 = false ∧
    (async_startup envW stNoAssetsW).2.system.disabled_reason =
      some MuiDisabledReason.LOAD_MUI :=
  ⟨((c2_startup_order_and_outcome envW stW).2.2.2 _ _ _ rfl rfl rfl).1,
   ((c2_startup_order_and_outcome envW stW).2.2.2 _ _ _ rfl rfl rfl).2,
   rfl,
   ((c2_startup_order_and_outcome envW stNoAssetsW).1 rfl).2⟩

/-- C3 counterexample: an execution of configure_plugins in which the
host static-path registration raises ends with the system disabled
(LOAD_MUI), so the dependency check does not leave the lifecycle state
unchanged on every execution. -/
theorem c3_counterexample :
    stW.system.disabled_reason = none ∧
    (configure_plugins envStaticRaisesW stW).2.system.disabled_reason =
      some MuiDisabledReason.LOAD_MUI := by
  constructor
  · rfl
  · rfl

/-- C3 amended: whenever the host API calls made by configure_plugins
(add_extra_js_url, register_static_path) do not raise, the dependency
check leaves the lifecycle state unchanged and reports success: missing
or unexpectedly present resource directories only produce log entries
and never disable the system. -/
theorem c3_plugins_preserve_lifecycle (env : Env) (s : MuiState)
    (h1 : env.addExtraJsRaises = false) (h2 : env.registerStaticPathRaises = false) :
    (configure_plugins env s).1 = true ∧
    (configure_plugins env s).2.system = s.system := by
  unfold configure_plugins configure_plugins_body
  by_cases ht : truthy (s.configuration.getattr "include_other_cards") = true
  · simp [h1, h2, ht]
  · simp [h1, h2, ht]

/-- Witness for C3 amended at the witness environment and state. -/
theorem c3_witness :
    envW.addExtraJsRaises = false ∧ envW.registerStaticPathRaises = false ∧
    (configure_plugins envW stW).1 = true ∧
    (configure_plugins envW stW).2.system = stW.system :=
  ⟨rfl, rfl,
   (c3_plugins_preserve_lifecycle envW stW rfl rfl).1,
   (c3_plugins_preserve_lifecycle envW stW rfl rfl).2⟩

/-- C4: any exception raised inside one of the three setup steps is
caught at that step boundary, logged, converted into Disabled(LOAD_MUI)
and turned into a false return of the step; async_startup then reports
a plain boolean failure, so no exception value reaches the caller (all
step functions are total with a Bool result). -/
theorem c4_exceptions_caught_at_step_boundary (env : Env) (s : MuiState) :
    (∀ st, (configure_mui_body env st).1.isSome = true →
        (configure_mui env st).1 = false ∧
        (configure_mui env st).2.system.disabled_reason = some MuiDisabledReason.LOAD_MUI ∧
        (configure_mui env st).2.host.logs =
          (configure_mui_body env st).2.host.logs ++ ["exception"]) ∧
    (∀ st, (configure_plugins_body env st).1.isSome = true →
        (configure_plugins env st).1 = false ∧
        (configure_plugins env st).2.system.disabled_reason = some MuiDisabledReason.LOAD_MUI ∧
        (configure_plugins env st).2.host.logs =
          (configure_plugins_body env st).2.host.logs ++ ["exception"]) ∧
    (∀ st, (configure_dashboard_body env st).1.isSome = true →
        (configure_dashboard env st).1 = false ∧
        (configure_dashboard env st).2.system.disabled_reason = some MuiDisabledReason.LOAD_MUI ∧
        (configure_dashboard env st).2.host.logs =
          (configure_dashboard_body env st).2.host.logs ++ ["exception"]) ∧
    ((configure_mui_body env s).1.isSome = true →
        (async_startup env s).1 = false ∧
        (async_startup env s).2.system.disabled_reason = some MuiDisabledReason.LOAD_MUI) ∧
    (∀ s1, configure_mui env s = (true, s1) →
        (configure_plugins_body env s1).1.isSome = true →
        (async_startup env s).1 = false ∧
        (async_startup env s).2.system.disabled_reason = some MuiDisabledReason.LOAD_MUI) ∧
    (∀ s1 s2, configure_mui env s = (true, s1) → configure_plugins env s1 = (true, s2) →
        (configure_dashboard_body env s2).1.isSome = true →
        (async_startup env s).1 = false ∧
        (async_startup env s).2.system.disabled_reason = some MuiDisabledReason.LOAD_MUI) := by
  have hml : ∀ st, (configure_mui_body env st).1.isSome = true →
      (configure_mui env st).1 = false := by
    intro st h
    rw [configure_mui_err env st h]
  have hpl : ∀ st, (configure_plugins_body env st).1.isSome = true →
      (configure_plugins env st).1 = false := by
    intro st h
    rw [configure_plugins_err env st h]
  have hdl : ∀ st, (configure_dashboard_body env st).1.isSome = true →
      (configure_dashboard env st).1 = false := by
    intro st h
    rw [configure_dashboard_err env st h]
  refine ⟨fun st h => ⟨hml st h, configure_mui_false_disabled env st (hml st h), ?_⟩,
          fun st h => ⟨hpl st h, configure_plugins_false_disabled env st (hpl st h), ?_⟩,
          fun st h => ⟨hdl st h, configure_dashboard_false_disabled env st (hdl st h), ?_⟩,
          fun h => ?_, fun s1 hm h => ?_, fun s1 s2 hm hp h => ?_⟩
  · rw [configure_mui_err env st h]
    unfold disable_mui
    split
    · rfl
    · split <;> rfl
  · rw [configure_plugins_err env st h]
    unfold disable_mui
    split
    · rfl
    · split <;> rfl
  · rw [configure_dashboard_err env st h]
    unfold disable_mui
    split
    · rfl
    · split <;> rfl
  · have hf := hml s h
    have ha := async_startup_mui_false env s hf
    exact ⟨by rw [ha], by rw [ha]; exact configure_mui_false_disabled env s hf⟩
  · have hf := hpl s1 h
    have ha := async_startup_plugins_false env s s1 hm hf
    exact ⟨by rw [ha], by rw [ha]; exact configure_plugins_false_disabled env s1 hf⟩
  · have hf := hdl s2 h
    have ha := async_startup_dashboard_false env s s1 s2 hm hp hf
    exact ⟨by rw [ha], by rw [ha]; exact configure_dashboard_false_disabled env s2 hf⟩

/-- Witness for C4: at the asset-free state the configure_mui body
raises, the step returns false with Disabled(LOAD_MUI), and startup
returns a boolean failure. -/
theorem c4_witness :
    (configure_mui_body envW stNoAssetsW).1.isSome = true ∧
    (configure_mui envW stNoAssetsW).1 = false ∧
    (configure_mui envW stNoAssetsW).2.system.disabled_reason =
      some MuiDisabledReason.LOAD_MUI ∧
    (async_startup envW stNoAssetsW).1 = false :=
  ⟨rfl,
   ((c4_exceptions_caught_at_step_boundary envW stNoAssetsW).1 stNoAssetsW rfl).1,
   ((c4_exceptions_caught_at_step_boundary envW stNoAssetsW).1 stNoAssetsW rfl).2.1,
   ((c4_exceptions_caught_at_step_boundary envW stNoAssetsW).2.2.2.1 rfl).1⟩

/-- C9 counterexample state: a stray file sits at the custom_actions
path, so os.path.exists is true but the path is not a directory. -/
def stBadCaW : MuiState :=
  { stW with fs := { fsW with
      files := fun p => if p = caDirP envW then some "stray" else fsW.files p } }

/-- C9 as frozen is refuted for the reload operation: reload_configuration
(base.py lines 363-372) has no exception handler, and when the
custom_actions path exists but is not a directory, shutil.copytree
raises, so the invocation fires no minimalist_ui_reload event at all
rather than exactly one. -/
theorem c9_counterexample :
    (reload_configuration envW stBadCaW).1 = some PyExc.fileNotFound ∧
    (reload_configuration envW stBadCaW).2.host.firedEvents ≠
      stBadCaW.host.firedEvents ++ ["minimalist_ui_reload"] :=
  ⟨rfl, by decide⟩

/-- C9 amended: after every successful completion of configure_mui
exactly one minimalist_ui_reload event is fired on the host bus
(base.py line 346). reload_configuration fires exactly one event on
every invocation in which the custom-actions tree copy does not raise
(base.py line 372); when that copy raises (the path exists but is not
a directory), the exception propagates uncaught and no event is
fired. -/
theorem c9_exactly_one_reload_event (env : Env) (s : MuiState) :
    ((configure_mui env s).1 = true →
      (configure_mui env s).2.host.firedEvents =
        s.host.firedEvents ++ ["minimalist_ui_reload"]) ∧
    ((reload_configuration env s).1 = none →
      (reload_configuration env s).2.host.firedEvents =
        s.host.firedEvents ++ ["minimalist_ui_reload"]) ∧
    ((reload_configuration env s).1 ≠ none →
      (reload_configuration env s).2.host.firedEvents = s.host.firedEvents) := by
  refine ⟨?_, ?_, ?_⟩
  · intro h
    rcases hb : configure_mui_body env s with ⟨e, s1⟩
    unfold configure_mui at h ⊢
    rw [hb] at h ⊢
    cases e with
    | some e => simp at h
    | none =>
      have hs1 : s1.host.firedEvents = s.host.firedEvents ++ ["minimalist_ui_reload"] := by
        unfold configure_mui_body at hb
        rcases hi : installFS env s.configuration s.fs with ⟨ei, fsi⟩
        rw [hi] at hb
        cases ei with
        | some e2 => simp at hb
        | none =>
          injection hb with hb1 hb2
          rw [← hb2]
      exact hs1
  · intro h
    unfold reload_configuration at h ⊢
    by_cases hg : fsExists s.fs (caDirP env) = true
    · rw [if_pos hg] at h ⊢
      rcases hct : copytreeE s.fs (caDirP env) (caTplDstP env) with ⟨e, fs1⟩
      cases e with
      | some e =>
        rw [hct] at h
        simp at h
      | none => rfl
    · rw [if_neg hg] at h ⊢
  · intro h
    unfold reload_configuration at h ⊢
    by_cases hg : fsExists s.fs (caDirP env) = true
    · rw [if_pos hg] at h ⊢
      rcases hct : copytreeE s.fs (caDirP env) (caTplDstP env) with ⟨e, fs1⟩
      cases e with
      | some e => rfl
      | none =>
        rw [hct] at h
        exact absurd rfl h
    · rw [if_neg hg] at h ⊢
      exact absurd rfl h

/-- Witness for C9: at the witness state configure_mui succeeds and the
custom-actions path does not exist, so reload fires the event; at the
stray-file state the reload copy raises and no event is fired. -/
theorem c9_witness :
    (configure_mui envW stW).1 = true ∧
    (configure_mui envW stW).2.host.firedEvents =
      stW.host.firedEvents ++ ["minimalist_ui_reload"] ∧
    (reload_configuration envW stW).1 = none ∧
    (reload_configuration envW stW).2.host.firedEvents =
      stW.host.firedEvents ++ ["minimalist_ui_reload"] ∧
    (reload_configuration envW stBadCaW).1 ≠ none ∧
    (reload_configuration envW stBadCaW).2.host.firedEvents =
      stBadCaW.host.firedEvents :=
  ⟨rfl, (c9_exactly_one_reload_event envW stW).1 rfl,
   rfl, (c9_exactly_one_reload_event envW stW).2.1 rfl,
   by decide, (c9_exactly_one_reload_event envW stBadCaW).2.2 (by decide)⟩

/-! Filesystem pointwise characterizations and path-region lemmas. -/

theorem files_setFile (fs : FS) (p : FPath) (c : String) (q : FPath) :
    (setFile fs p c).files q = if q = p then some c else fs.files q := rfl

theorem files_rmtree (fs : FS) (d q : FPath) :
    (rmtree fs d).files q = if pathLe d q then none else fs.files q := rfl

theorem files_makedirs (fs : FS) (d q : FPath) :
    (makedirs fs d).files q = fs.files q := rfl

theorem dirs_makedirs (fs : FS) (d q : FPath) :
    (makedirs fs d).dirs q = if pathLe q d then true else fs.dirs q := rfl

theorem files_copytreeOk (fs : FS) (src dst q : FPath) :
    (copytreeOk fs src dst).files q =
      if pathLe dst q ∧ q ≠ dst then
        match fs.files (src ++ List.drop dst.length q) with
        | some c => some c
        | none => fs.files q
      else fs.files q := rfl

theorem configsP_eq (env : Env) :
    configsP env = env.cfgRoot ++ ["minimalist_ui", "configs"] := rfl

theorem addonsP_eq (env : Env) :
    addonsP env = env.cfgRoot ++ ["minimalist_ui", "addons"] := rfl

theorem dashDirP_eq (env : Env) :
    dashDirP env = env.cfgRoot ++ ["minimalist_ui", "dashboard"] := rfl

theorem caDirP_eq (env : Env) :
    caDirP env = env.cfgRoot ++ ["minimalist_ui", "custom_actions"] := rfl

theorem uiDstP_eq (env : Env) :
    uiDstP env = env.cfgRoot ++ ["minimalist_ui", "dashboard", "ui.yaml"] := rfl

theorem caDstP_eq (env : Env) :
    caDstP env = env.cfgRoot ++ ["minimalist_ui", "custom_actions", "custom_actions.yaml"] := rfl

theorem defaultDstP_eq (env : Env) :
    defaultDstP env =
      env.intDir ++ ["__ui_minimalist__", "mui_templates", "default.yaml"] := by
  show (env.intDir ++ ["__ui_minimalist__", "mui_templates"]) ++ ["default.yaml"] = _
  rw [List.append_assoc]
  rfl

theorem langDstP_eq (env : Env) :
    langDstP env =
      env.intDir ++ ["__ui_minimalist__", "mui_templates", "language.yaml"] := by
  show (env.intDir ++ ["__ui_minimalist__", "mui_templates"]) ++ ["language.yaml"] = _
  rw [List.append_assoc]
  rfl

theorem caTplDstP_eq (env : Env) :
    caTplDstP env =
      env.intDir ++ ["__ui_minimalist__", "mui_templates", "custom_actions"] := by
  show (env.intDir ++ ["__ui_minimalist__", "mui_templates"]) ++ ["custom_actions"] = _
  rw [List.append_assoc]
  rfl

/-- Integration tree and configuration tree are disjoint when neither
root is a prefix of the other. -/
theorem sep_int_cfg {env : Env}
    (hs1 : pathLe env.intDir env.cfgRoot = false)
    (hs2 : pathLe env.cfgRoot env.intDir = false)
    {p : FPath} {a b : FPath}
    (hi : pathLe (env.intDir ++ a) p = true)
    (hc : pathLe (env.cfgRoot ++ b) p = true) : False := by
  have h1 : pathLe env.intDir p = true :=
    pathLe_trans (pathLe_of_append env.intDir a) hi
  have h2 : pathLe env.cfgRoot p = true :=
    pathLe_trans (pathLe_of_append env.cfgRoot b) hc
  rcases pathLe_total_of_common h1 h2 with h | h
  · rw [hs1] at h
    exact Bool.false_ne_true h
  · rw [hs2] at h
    exact Bool.false_ne_true h

/-- A location inside the configuration tree is never inside the
integration tree (boolean form). -/
theorem notin_int_tree {env : Env}
    (hs1 : pathLe env.intDir env.cfgRoot = false)
    (hs2 : pathLe env.cfgRoot env.intDir = false)
    {p : FPath} {b : FPath}
    (hc : pathLe (env.cfgRoot ++ b) p = true) (a : FPath) :
    pathLe (env.intDir ++ a) p = false := by
  cases hpa : pathLe (env.intDir ++ a) p with
  | false => rfl
  | true => exact absurd (sep_int_cfg hs1 hs2 hpa hc) (fun h => h)

/-- A location inside the configuration tree never equals an
integration-tree point. -/
theorem ne_int_point {env : Env}
    (hs1 : pathLe env.intDir env.cfgRoot = false)
    (hs2 : pathLe env.cfgRoot env.intDir = false)
    {p : FPath} {b : FPath}
    (hc : pathLe (env.cfgRoot ++ b) p = true) (a : FPath) :
    p ≠ env.intDir ++ a := by
  intro he
  subst he
  exact sep_int_cfg hs1 hs2 (pathLe_refl (env.intDir ++ a)) hc

/-- Two sibling branches of a common directory are disjoint (boolean
form). -/
theorem notin_sibling_branch {d : FPath} {x y : String} (hxy : y ≠ x)
    {p : FPath} {a : FPath}
    (hc : pathLe (d ++ x :: a) p = true) (b : FPath) :
    pathLe (d ++ y :: b) p = false := by
  cases hpa : pathLe (d ++ y :: b) p with
  | false => rfl
  | true => exact absurd (pathLe_cons_disjoint hxy b a p hpa hc) (fun h => h)

/-- A location in one branch never equals a point of a sibling branch. -/
theorem ne_sibling_point {d : FPath} {x y : String} (hxy : y ≠ x)
    {p : FPath} {a : FPath}
    (hc : pathLe (d ++ x :: a) p = true) (b : FPath) :
    p ≠ d ++ y :: b := by
  intro he
  subst he
  exact pathLe_cons_disjoint hxy b a _ (pathLe_refl (d ++ y :: b)) hc

/-- configure_mui leaves exactly the filesystem computed by installFS,
on both the success and the exception path. -/
theorem configure_mui_fs (env : Env) (s : MuiState) :
    (configure_mui env s).2.fs = (installFS env s.configuration s.fs).2 := by
  unfold configure_mui configure_mui_body
  rcases hi : installFS env s.configuration s.fs with ⟨e, fsi⟩
  cases e with
  | none => rfl
  | some e =>
    show (disable_mui _ _).fs = _
    unfold disable_mui
    split
    · rfl
    · split <;> rfl

/-- configure_mui does not change the configuration record. -/
theorem configure_mui_configuration (env : Env) (s : MuiState) :
    (configure_mui env s).2.configuration = s.configuration := by
  unfold configure_mui configure_mui_body
  rcases hi : installFS env s.configuration s.fs with ⟨e, fsi⟩
  cases e with
  | none => rfl
  | some e =>
    show (disable_mui _ _).configuration = _
    unfold disable_mui
    split
    · rfl
    · split <;> rfl

/-- Pointwise reading through an if at the pair level. -/
theorem snd_files_ite (c : Prop) [Decidable c] (a b : Option PyExc × FS) (p : FPath) :
    ((if c then a else b).2).files p = if c then a.2.files p else b.2.files p := by
  split <;> rfl

/-- A fixed value of one file location preserved by the head step and
by the continuation is preserved by their sequencing. -/
theorem fsThen_files_eq (r : Option PyExc × FS) (f : FS → Option PyExc × FS)
    (p : FPath) (v : Option String) (hr : r.2.files p = v)
    (hf : ∀ fs1, fs1.files p = v → (f fs1).2.files p = v) :
    (fsThen r f).2.files p = v := by
  rcases r with ⟨e, fsr⟩
  cases e with
  | none => exact hf fsr hr
  | some e => exact hr

/-- Sequencing after a successful head step runs the continuation. -/
theorem fsThen_none_eq (x : FS) (f : FS → Option PyExc × FS) : fsThen (none, x) f = f x := rfl

/-- copy2 does not touch locations other than its destination. -/
theorem copy2_files_other (fs : FS) (src dst p : FPath) (hd : p ≠ dst) :
    (copy2 fs src dst).2.files p = fs.files p := by
  unfold copy2
  cases hs : fs.files src with
  | none => rfl
  | some c => simp [files_setFile, hd]

/-- copyIfAbsent does not touch locations other than its destination. -/
theorem copyIfAbsent_files_other (fs : FS) (src dst p : FPath) (hd : p ≠ dst) :
    (copyIfAbsent fs src dst).2.files p = fs.files p := by
  unfold copyIfAbsent
  split
  · rfl
  · exact copy2_files_other fs src dst p hd

/-- copytreeE does not touch locations outside its destination tree. -/
theorem copytreeE_files_other (fs : FS) (src dst p : FPath)
    (hd : pathLe dst p = false) :
    (copytreeE fs src dst).2.files p = fs.files p := by
  unfold copytreeE
  split
  · simp [files_copytreeOk, hd]
  · rfl

/-- Under the separation hypotheses, no operation of the install
pipeline after the initial cleanup writes below minimalist_ui/configs
or minimalist_ui/addons, so every location below either directory ends
with no file, on every exit path of installFS. -/
theorem installFS_none_under (env : Env) (c : MuiConfiguration) (fs : FS) (p : FPath)
    (hs1 : pathLe env.intDir env.cfgRoot = false)
    (hs2 : pathLe env.cfgRoot env.intDir = false)
    (htp1 : strToPath (pyFormat (c.getattr "theme_path") ++ "/") ≠ [])
    (htp2 : (strToPath (pyFormat (c.getattr "theme_path") ++ "/")).head? ≠
      some "minimalist_ui")
    (hp : pathLe (configsP env) p = true ∨ pathLe (addonsP env) p = true) :
    (installFS env c fs).2.files p = none := by
  have hX : ∃ X : String, X ≠ "dashboard" ∧ X ≠ "custom_actions" ∧
      pathLe (env.cfgRoot ++ ["minimalist_ui", X]) p = true := by
    rcases hp with h | h
    · exact ⟨"configs", by decide, by decide, h⟩
    · exact ⟨"addons", by decide, by decide, h⟩
  obtain ⟨X, hX1, hX2, hC⟩ := hX
  have hC2 : pathLe ((env.cfgRoot ++ ["minimalist_ui"]) ++ [X]) p = true := by
    rw [List.append_assoc]
    exact hC
  have hW3 : p ≠ defaultDstP env := by
    rw [defaultDstP_eq]
    exact ne_int_point hs1 hs2 hC _
  have hW6 : p ≠ langDstP env := by
    rw [langDstP_eq]
    exact ne_int_point hs1 hs2 hC _
  have hW7 : pathLe (templatesDirP env) p = false := notin_int_tree hs1 hs2 hC _
  have hW8 : pathLe (caTplDstP env) p = false := by
    rw [caTplDstP_eq]
    exact notin_int_tree hs1 hs2 hC _
  have hW4 : p ≠ uiDstP env := by
    have he : (env.cfgRoot ++ ["minimalist_ui"]) ++ ["dashboard", "ui.yaml"] =
        uiDstP env := by
      rw [uiDstP_eq, List.append_assoc]
      rfl
    rw [← he]
    exact ne_sibling_point (Ne.symm hX1) hC2 ["ui.yaml"]
  have hW5 : p ≠ caDstP env := by
    have he : (env.cfgRoot ++ ["minimalist_ui"]) ++
        ["custom_actions", "custom_actions.yaml"] = caDstP env := by
      rw [caDstP_eq, List.append_assoc]
      rfl
    rw [← he]
    exact ne_sibling_point (Ne.symm hX2) hC2 ["custom_actions.yaml"]
  have hW9 : pathLe (themeDstP env c) p = false := by
    obtain ⟨hh, tt, htq⟩ : ∃ hh tt,
        strToPath (pyFormat (c.getattr "theme_path") ++ "/") = hh :: tt := by
      cases hq : strToPath (pyFormat (c.getattr "theme_path") ++ "/") with
      | nil => exact absurd hq htp1
      | cons hh tt => exact ⟨hh, tt, rfl⟩
    have hne : hh ≠ "minimalist_ui" := by
      rw [htq] at htp2
      simpa using htp2
    show pathLe (env.cfgRoot ++ strToPath (pyFormat (c.getattr "theme_path") ++ "/"))
      p = false
    rw [htq]
    exact notin_sibling_branch hne hC tt
  have hbase : (rmtree (rmtree fs (configsP env)) (addonsP env)).files p = none := by
    rcases hp with h | h <;> simp [files_rmtree, h]
  simp only [installFS]
  split
  · cases hl : lookupLanguage (c.getattr "language") with
    | error e => simpa [files_makedirs] using hbase
    | ok lang =>
      refine fsThen_files_eq _ _ p none ?_ ?_
      · rw [copy2_files_other _ _ _ _ hW3]
        simpa [files_makedirs] using hbase
      · intro fs6 h6
        refine fsThen_files_eq _ _ p none ?_ ?_
        · split
          · rw [copyIfAbsent_files_other _ _ _ _ hW4]
            exact h6
          · exact h6
        · intro fs7 h7
          refine fsThen_files_eq _ _ p none ?_ ?_
          · rw [copyIfAbsent_files_other _ _ _ _ hW5]
            exact h7
          · intro fs8 h8
            refine fsThen_files_eq _ _ p none ?_ ?_
            · rw [copy2_files_other _ _ _ _ hW6]
              exact h8
            · intro fs9 h9
              refine fsThen_files_eq _ _ p none ?_ ?_
              · rw [copytreeE_files_other _ _ _ _ hW7]
                exact h9
              · intro fs10 h10
                refine fsThen_files_eq _ _ p none ?_ ?_
                · rw [copytreeE_files_other _ _ _ _ hW8]
                  exact h10
                · intro fs11 h11
                  rw [copytreeE_files_other _ _ _ _ hW9]
                  exact h11
  · simpa [files_makedirs] using hbase

/-- C10: every run of configure_mui begins by recursively deleting the
minimalist_ui/configs and minimalist_ui/addons directories (base.py
lines 271-274, ignore_errors) before any copy, and no later operation
of the run writes below either directory, so user content placed there
is removed by every setup and every reload of the integration, on both
the success and the exception path. -/
theorem c10_configs_addons_wiped (env : Env) (s : MuiState) (p : FPath)
    (hs1 : pathLe env.intDir env.cfgRoot = false)
    (hs2 : pathLe env.cfgRoot env.intDir = false)
    (htp1 : strToPath (pyFormat (s.configuration.getattr "theme_path") ++ "/") ≠ [])
    (htp2 : (strToPath (pyFormat (s.configuration.getattr "theme_path") ++ "/")).head? ≠
      some "minimalist_ui")
    (hp : pathLe (configsP env) p = true ∨ pathLe (addonsP env) p = true) :
    (configure_mui env s).2.fs.files p = none := by
  rw [configure_mui_fs]
  exact installFS_none_under env s.configuration s.fs p hs1 hs2 htp1 htp2 hp

/-- Witness location of a user file below minimalist_ui/configs. -/
def userCfgPathW : FPath := envW.cfgRoot ++ ["minimalist_ui", "configs", "user.yaml"]

/-- Witness state carrying a user file below minimalist_ui/configs. -/
def stUserCfgW : MuiState :=
  { stW with fs := { fsW with
      files := fun p => if p = userCfgPathW then some "user" else fsW.files p } }

/-- Witness for C10: the user file is present before the run and gone
after it. -/
theorem c10_witness :
    pathLe envW.intDir envW.cfgRoot = false ∧
    pathLe envW.cfgRoot envW.intDir = false ∧
    strToPath (pyFormat (stUserCfgW.configuration.getattr "theme_path") ++ "/") ≠ [] ∧
    (strToPath (pyFormat (stUserCfgW.configuration.getattr "theme_path") ++ "/")).head? ≠
      some "minimalist_ui" ∧
    pathLe (configsP envW) userCfgPathW = true ∧
    stUserCfgW.fs.files userCfgPathW = some "user" ∧
    (configure_mui envW stUserCfgW).2.fs.files userCfgPathW = none :=
  ⟨rfl, rfl, by decide, by decide, rfl, rfl,
   c10_configs_addons_wiped envW stUserCfgW userCfgPathW rfl rfl (by decide) (by decide)
     (Or.inl rfl)⟩

/-- A file already present at a guarded copy destination keeps its
content: the copy runs only when the destination is absent. -/
theorem copyIfAbsent_files_some_dst (fs : FS) (src dst : FPath) (v : String)
    (h : fs.files dst = some v) : (copyIfAbsent fs src dst).2.files dst = some v := by
  unfold copyIfAbsent
  rw [if_pos (by simp [fsExists, h] : fsExists fs dst = true)]
  exact h

/-- A location that is distinct from the unconditional copy targets,
outside the three copytree destination trees and outside the two wiped
directories keeps its file content across the whole install pipeline,
on every exit path; the two guarded copy destinations themselves are
covered because a present file disables the guarded copy. -/
theorem installFS_files_some_preserved (env : Env) (c : MuiConfiguration) (fs : FS)
    (q : FPath) (v : String)
    (hq3 : q ≠ defaultDstP env) (hq6 : q ≠ langDstP env)
    (hq7 : pathLe (templatesDirP env) q = false)
    (hq8 : pathLe (caTplDstP env) q = false)
    (hq9 : pathLe (themeDstP env c) q = false)
    (hqc : pathLe (configsP env) q = false)
    (hqa : pathLe (addonsP env) q = false)
    (hfs : fs.files q = some v) :
    (installFS env c fs).2.files q = some v := by
  have hbase : (rmtree (rmtree fs (configsP env)) (addonsP env)).files q = some v := by
    simp [files_rmtree, hqc, hqa, hfs]
  simp only [installFS]
  split
  · cases hl : lookupLanguage (c.getattr "language") with
    | error e => simpa [files_makedirs] using hbase
    | ok lang =>
      refine fsThen_files_eq _ _ q (some v) ?_ ?_
      · rw [copy2_files_other _ _ _ _ hq3]
        simpa [files_makedirs] using hbase
      · intro fs6 h6
        refine fsThen_files_eq _ _ q (some v) ?_ ?_
        · split
          · by_cases hq : q = uiDstP env
            · subst hq
              exact copyIfAbsent_files_some_dst _ _ _ _ h6
            · rw [copyIfAbsent_files_other _ _ _ _ hq]
              exact h6
          · exact h6
        · intro fs7 h7
          refine fsThen_files_eq _ _ q (some v) ?_ ?_
          · by_cases hq : q = caDstP env
            · subst hq
              exact copyIfAbsent_files_some_dst _ _ _ _ h7
            · rw [copyIfAbsent_files_other _ _ _ _ hq]
              exact h7
          · intro fs8 h8
            refine fsThen_files_eq _ _ q (some v) ?_ ?_
            · rw [copy2_files_other _ _ _ _ hq6]
              exact h8
            · intro fs9 h9
              refine fsThen_files_eq _ _ q (some v) ?_ ?_
              · rw [copytreeE_files_other _ _ _ _ hq7]
                exact h9
              · intro fs10 h10
                refine fsThen_files_eq _ _ q (some v) ?_ ?_
                · rw [copytreeE_files_other _ _ _ _ hq8]
                  exact h10
                · intro fs11 h11
                  rw [copytreeE_files_other _ _ _ _ hq9]
                  exact h11
  · simpa [files_makedirs] using hbase

/-- A present file at a location of the minimalist_ui tree in a branch
other than configs and addons is preserved by the install pipeline. -/
theorem installFS_preserves_cfg_point (env : Env) (c : MuiConfiguration) (fs : FS)
    (v : String) (Y : String) (rest : FPath)
    (hs1 : pathLe env.intDir env.cfgRoot = false)
    (hs2 : pathLe env.cfgRoot env.intDir = false)
    (htp1 : strToPath (pyFormat (c.getattr "theme_path") ++ "/") ≠ [])
    (htp2 : (strToPath (pyFormat (c.getattr "theme_path") ++ "/")).head? ≠
      some "minimalist_ui")
    (hY1 : Y ≠ "configs") (hY2 : Y ≠ "addons")
    (hfs : fs.files (env.cfgRoot ++ "minimalist_ui" :: Y :: rest) = some v) :
    (installFS env c fs).2.files (env.cfgRoot ++ "minimalist_ui" :: Y :: rest) =
      some v := by
  have hcq : pathLe (env.cfgRoot ++ "minimalist_ui" :: Y :: rest)
      (env.cfgRoot ++ "minimalist_ui" :: Y :: rest) = true := pathLe_refl _
  have hcq2 : pathLe ((env.cfgRoot ++ ["minimalist_ui"]) ++ Y :: rest)
      (env.cfgRoot ++ "minimalist_ui" :: Y :: rest) = true := by
    rw [List.append_assoc]
    exact pathLe_refl _
  have hq3 : env.cfgRoot ++ "minimalist_ui" :: Y :: rest ≠ defaultDstP env := by
    rw [defaultDstP_eq]
    exact ne_int_point hs1 hs2 hcq _
  have hq6 : env.cfgRoot ++ "minimalist_ui" :: Y :: rest ≠ langDstP env := by
    rw [langDstP_eq]
    exact ne_int_point hs1 hs2 hcq _
  have hq7 : pathLe (templatesDirP env)
      (env.cfgRoot ++ "minimalist_ui" :: Y :: rest) = false :=
    notin_int_tree hs1 hs2 hcq _
  have hq8 : pathLe (caTplDstP env)
      (env.cfgRoot ++ "minimalist_ui" :: Y :: rest) = false := by
    rw [caTplDstP_eq]
    exact notin_int_tree hs1 hs2 hcq _
  have hq9 : pathLe (themeDstP env c)
      (env.cfgRoot ++ "minimalist_ui" :: Y :: rest) = false := by
    obtain ⟨hh, tt, htq⟩ : ∃ hh tt,
        strToPath (pyFormat (c.getattr "theme_path") ++ "/") = hh :: tt := by
      cases hq : strToPath (pyFormat (c.getattr "theme_path") ++ "/") with
      | nil => exact absurd hq htp1
      | cons hh tt => exact ⟨hh, tt, rfl⟩
    have hne : hh ≠ "minimalist_ui" := by
      rw [htq] at htp2
      simpa using htp2
    show pathLe (env.cfgRoot ++ strToPath (pyFormat (c.getattr "theme_path") ++ "/"))
      (env.cfgRoot ++ "minimalist_ui" :: Y :: rest) = false
    rw [htq]
    exact notin_sibling_branch hne hcq tt
  have hceq : (env.cfgRoot ++ ["minimalist_ui"]) ++ ["configs"] = configsP env := by
    rw [configsP_eq, List.append_assoc]
    rfl
  have haeq : (env.cfgRoot ++ ["minimalist_ui"]) ++ ["addons"] = addonsP env := by
    rw [addonsP_eq, List.append_assoc]
    rfl
  have hqc : pathLe (configsP env)
      (env.cfgRoot ++ "minimalist_ui" :: Y :: rest) = false := by
    rw [← hceq]
    exact notin_sibling_branch (Ne.symm hY1) hcq2 []
  have hqa : pathLe (addonsP env)
      (env.cfgRoot ++ "minimalist_ui" :: Y :: rest) = false := by
    rw [← haeq]
    exact notin_sibling_branch (Ne.symm hY2) hcq2 []
  exact installFS_files_some_preserved env c fs _ v hq3 hq6 hq7 hq8 hq9 hqc hqa hfs

/-- C5: with the sidepanel enabled, an already existing destination
dashboard file minimalist_ui/dashboard/ui.yaml keeps its exact content
across a run of the asset installer, whatever the bundled source
contains, and likewise an already existing
minimalist_ui/custom_actions/custom_actions.yaml is never overwritten:
both copies run only when the destination is absent (base.py lines
292-321). -/
theorem c5_existing_destination_files_preserved (env : Env) (s : MuiState)
    (hs1 : pathLe env.intDir env.cfgRoot = false)
    (hs2 : pathLe env.cfgRoot env.intDir = false)
    (htp1 : strToPath (pyFormat (s.configuration.getattr "theme_path") ++ "/") ≠ [])
    (htp2 : (strToPath (pyFormat (s.configuration.getattr "theme_path") ++ "/")).head? ≠
      some "minimalist_ui")
    (hsp : truthy (s.configuration.getattr "sidepanel_enabled") = true) :
    (∀ cu, s.fs.files (uiDstP env) = some cu →
        (configure_mui env s).2.fs.files (uiDstP env) = some cu) ∧
    (∀ cc, s.fs.files (caDstP env) = some cc →
        (configure_mui env s).2.fs.files (caDstP env) = some cc) := by
  constructor
  · intro cu h
    rw [configure_mui_fs]
    exact installFS_preserves_cfg_point env s.configuration s.fs cu "dashboard"
      ["ui.yaml"] hs1 hs2 htp1 htp2 (by decide) (by decide) h
  · intro cc h
    rw [configure_mui_fs]
    exact installFS_preserves_cfg_point env s.configuration s.fs cc "custom_actions"
      ["custom_actions.yaml"] hs1 hs2 htp1 htp2 (by decide) (by decide) h

/-- Witness state with user-customized dashboard and custom-actions
files already present. -/
def stPreW : MuiState :=
  { stW with fs := { fsW with
      files := fun p =>
        if p = uiDstP envW then some "userui"
        else if p = caDstP envW then some "userca"
        else fsW.files p } }

/-- Witness for C5: the two user files keep their contents across the
run even though the bundled sources differ. -/
theorem c5_witness :
    pathLe envW.intDir envW.cfgRoot = false ∧
    pathLe envW.cfgRoot envW.intDir = false ∧
    strToPath (pyFormat (stPreW.configuration.getattr "theme_path") ++ "/") ≠ [] ∧
    (strToPath (pyFormat (stPreW.configuration.getattr "theme_path") ++ "/")).head? ≠
      some "minimalist_ui" ∧
    truthy (stPreW.configuration.getattr "sidepanel_enabled") = true ∧
    stPreW.fs.files (uiDstP envW) = some "userui" ∧
    stPreW.fs.files (caDstP envW) = some "userca" ∧
    (configure_mui envW stPreW).2.fs.files (uiDstP envW) = some "userui" ∧
    (configure_mui envW stPreW).2.fs.files (caDstP envW) = some "userca" :=
  ⟨rfl, rfl, by decide, by decide, rfl, rfl, rfl,
   (c5_existing_destination_files_preserved envW stPreW rfl rfl (by decide) (by decide)
     rfl).1 "userui" rfl,
   (c5_existing_destination_files_preserved envW stPreW rfl rfl (by decide) (by decide)
     rfl).2 "userca" rfl⟩

/-! Infrastructure for the idempotence proof. -/

theorem notin_cfg_tree {env : Env}
    (hs1 : pathLe env.intDir env.cfgRoot = false)
    (hs2 : pathLe env.cfgRoot env.intDir = false)
    {q : FPath} {a : FPath}
    (hi : pathLe (env.intDir ++ a) q = true) (b : FPath) :
    pathLe (env.cfgRoot ++ b) q = false := by
  cases hx : pathLe (env.cfgRoot ++ b) q with
  | false => rfl
  | true => exact absurd (sep_int_cfg hs1 hs2 hi hx) (fun h => h)

theorem ne_cfg_point {env : Env}
    (hs1 : pathLe env.intDir env.cfgRoot = false)
    (hs2 : pathLe env.cfgRoot env.intDir = false)
    {q : FPath} {a : FPath}
    (hi : pathLe (env.intDir ++ a) q = true) (b : FPath) :
    q ≠ env.cfgRoot ++ b := by
  intro he
  subst he
  exact sep_int_cfg hs1 hs2 hi (pathLe_refl _)

theorem dirs_setFile (fs : FS) (p : FPath) (c : String) (q : FPath) :
    (setFile fs p c).dirs q = fs.dirs q := rfl

theorem dirs_rmtree (fs : FS) (d q : FPath) :
    (rmtree fs d).dirs q = if pathLe d q then false else fs.dirs q := rfl

theorem dirs_copytreeOk (fs : FS) (src dst q : FPath) :
    (copytreeOk fs src dst).dirs q =
      if q = dst ∨ (pathLe dst q ∧ fs.dirs (src ++ List.drop dst.length q)) then true
      else fs.dirs q := rfl

theorem files_mk4 (env : Env) (g : FS) (p : FPath) :
    (mk4 env g).files p =
      if pathLe (addonsP env) p then none
      else if pathLe (configsP env) p then none
      else g.files p := rfl

theorem files_mk5 (env : Env) (g : FS) (p : FPath) :
    (mk5 env g).files p = (mk4 env g).files p := rfl

theorem dirs_mk4 (env : Env) (g : FS) (q : FPath) :
    (mk4 env g).dirs q =
      if pathLe q (caDirP env) then true
      else if pathLe q (dashDirP env) then true
      else if pathLe (addonsP env) q then false
      else if pathLe (configsP env) q then false
      else g.dirs q := rfl

theorem dirs_mk5 (env : Env) (g : FS) (q : FPath) :
    (mk5 env g).dirs q =
      if pathLe q (templatesDirP env) then true else (mk4 env g).dirs q := rfl

theorem mk4_dash_exists (env : Env) (g : FS) :
    fsExists (mk4 env g) (dashDirP env) = true := by
  simp [fsExists, mk4, makedirs, pathLe_refl]

/-- The dashboard directory always exists after mk4, so installFS is
the language lookup followed by the copy sequence. -/
theorem installFS_eq (env : Env) (c : MuiConfiguration) (fs0 : FS) :
    installFS env c fs0 =
      match lookupLanguage (c.getattr "language") with
      | .error e => (some e, mk5 env fs0)
      | .ok lang => installTail env c lang (mk5 env fs0) := by
  unfold installFS
  rw [if_pos (mk4_dash_exists env fs0)]

/-- installFS under a successful language lookup. -/
theorem installFS_eq_ok (env : Env) (c : MuiConfiguration) (fs0 : FS) (lang : String)
    (h : lookupLanguage (c.getattr "language") = Except.ok lang) :
    installFS env c fs0 = installTail env c lang (mk5 env fs0) := by
  rw [installFS_eq, h]

theorem defaultSrcP_eq (env : Env) :
    defaultSrcP env = env.intDir ++ ["dashboard", "translations", "default.yaml"] := rfl

theorem uiSrcP_eq (env : Env) :
    uiSrcP env = env.intDir ++ ["dashboard", "ui.yaml"] := rfl

theorem caSrcP_eq (env : Env) :
    caSrcP env = env.intDir ++ ["dashboard", "custom_actions.yaml"] := rfl

theorem muiTemplSrcP_eq (env : Env) :
    muiTemplSrcP env = env.intDir ++ ["dashboard", "mui_templates"] := rfl

theorem themeSrcP_eq (env : Env) :
    themeSrcP env = env.intDir ++ ["dashboard", "themefiles"] := rfl

theorem pathLe_cfg_int_false {env : Env}
    (hs1 : pathLe env.intDir env.cfgRoot = false)
    (hs2 : pathLe env.cfgRoot env.intDir = false) (b a : FPath) :
    pathLe (env.cfgRoot ++ b) (env.intDir ++ a) = false :=
  notin_cfg_tree hs1 hs2 (pathLe_refl (env.intDir ++ a)) b

theorem pathLe_int_cfg_false {env : Env}
    (hs1 : pathLe env.intDir env.cfgRoot = false)
    (hs2 : pathLe env.cfgRoot env.intDir = false) (a b : FPath) :
    pathLe (env.intDir ++ a) (env.cfgRoot ++ b) = false :=
  notin_int_tree hs1 hs2 (pathLe_refl (env.cfgRoot ++ b)) a

theorem ne_int_cfg {env : Env}
    (hs1 : pathLe env.intDir env.cfgRoot = false)
    (hs2 : pathLe env.cfgRoot env.intDir = false) (a b : FPath) :
    env.intDir ++ a ≠ env.cfgRoot ++ b := by
  intro he
  refine sep_int_cfg hs1 hs2 (pathLe_refl (env.intDir ++ a))
    (show pathLe (env.cfgRoot ++ b) (env.intDir ++ a) = true from ?_)
  rw [he]
  exact pathLe_refl (env.cfgRoot ++ b)

theorem ne_cfg_int {env : Env}
    (hs1 : pathLe env.intDir env.cfgRoot = false)
    (hs2 : pathLe env.cfgRoot env.intDir = false) (b a : FPath) :
    env.cfgRoot ++ b ≠ env.intDir ++ a :=
  fun he => ne_int_cfg hs1 hs2 a b he.symm

theorem append_ne_append (d a b : FPath) (h : a ≠ b) : d ++ a ≠ d ++ b := by
  intro he
  induction d with
  | nil => exact h he
  | cons x xs ih =>
    injection he with h1 h2
    exact ih h2

/-- The theme destination tree is disjoint from everything below the
minimalist_ui directory, as long as the rendered theme path is a
nonempty relative path whose first component is not minimalist_ui. -/
theorem pathLe_theme_mui_false {env : Env} {c : MuiConfiguration}
    (htp1 : strToPath (pyFormat (c.getattr "theme_path") ++ "/") ≠ [])
    (htp2 : (strToPath (pyFormat (c.getattr "theme_path") ++ "/")).head? ≠
      some "minimalist_ui")
    (X : String) (rest : FPath) :
    pathLe (themeDstP env c) (env.cfgRoot ++ "minimalist_ui" :: X :: rest) = false := by
  obtain ⟨hh, tt, htq⟩ : ∃ hh tt,
      strToPath (pyFormat (c.getattr "theme_path") ++ "/") = hh :: tt := by
    cases hq : strToPath (pyFormat (c.getattr "theme_path") ++ "/") with
    | nil => exact absurd hq htp1
    | cons hh tt => exact ⟨hh, tt, rfl⟩
  have hne : hh ≠ "minimalist_ui" := by
    rw [htq] at htp2
    simpa using htp2
  show pathLe (env.cfgRoot ++ strToPath (pyFormat (c.getattr "theme_path") ++ "/"))
    (env.cfgRoot ++ "minimalist_ui" :: X :: rest) = false
  rw [htq]
  exact notin_sibling_branch hne (pathLe_refl (env.cfgRoot ++ "minimalist_ui" :: X :: rest)) tt

/-- Optional file write: write when a content value is available,
otherwise leave the filesystem unchanged. -/
def setFileOpt (fs : FS) (p : FPath) (w : Option String) : FS :=
  match w with
  | some v => setFile fs p v
  | none => fs

theorem files_setFileOpt (fs : FS) (p : FPath) (w : Option String) (q : FPath) :
    (setFileOpt fs p w).files q =
      if q = p ∧ w.isSome then w else fs.files q := by
  cases w with
  | none => simp [setFileOpt]
  | some v => simp [setFileOpt, files_setFile]

theorem dirs_setFileOpt (fs : FS) (p : FPath) (w : Option String) (q : FPath) :
    (setFileOpt fs p w).dirs q = fs.dirs q := by
  cases w <;> rfl

/-- File-write stage of a successful install run: the cleanup and
directory creation followed by the four (possibly guarded) file
writes. -/
def finalG9 (env : Env) (c : MuiConfiguration) (fs : FS) : FS :=
  setFileOpt (setFileOpt (setFileOpt (setFileOpt (mk5 env fs)
    (defaultDstP env) (fs.files (defaultSrcP env)))
    (uiDstP env)
    (if truthy (c.getattr "sidepanel_enabled") = true ∧ fs.files (uiDstP env) = none
     then fs.files (uiSrcP env) else none))
    (caDstP env)
    (if fs.files (caDstP env) = none then fs.files (caSrcP env) else none))
    (langDstP env) (fs.files (transSrcP env "en"))

/-- State after the template card tree copy of a successful run. -/
def finalT10 (env : Env) (c : MuiConfiguration) (fs : FS) : FS :=
  copytreeOk (finalG9 env c fs) (muiTemplSrcP env) (templatesDirP env)

/-- State after the custom-actions tree copy of a successful run. -/
def finalT11 (env : Env) (c : MuiConfiguration) (fs : FS) : FS :=
  copytreeOk (finalT10 env c fs) (caDirP env) (caTplDstP env)

/-- Explicit result filesystem of a successful install run: the cleanup
and directory creation, the four (possibly guarded) file writes, and
the three tree copies, written as one term. -/
def installFinal (env : Env) (c : MuiConfiguration) (fs : FS) : FS :=
  copytreeOk (finalT11 env c fs) (themeSrcP env) (themeDstP env c)

/-- Content seen by the custom-actions tree copy at a relative location
below minimalist_ui/custom_actions: the guarded copy may just have
placed the bundled custom_actions.yaml there. -/
def caRead (env : Env) (fs : FS) (rel : FPath) : Option String :=
  if caDirP env ++ rel = caDstP env then
    (if (fs.files (caDstP env)).isSome then fs.files (caDstP env)
     else fs.files (caSrcP env))
  else fs.files (caDirP env ++ rel)

/-- Pointwise specification of the final filesystem of a successful
install run, by last writer: theme tree copy, custom-actions tree copy,
template tree copy, language file, default translation file, guarded
dashboard and custom-actions copies, the wiped directories, and
elsewhere the original content. -/
def instResult (env : Env) (c : MuiConfiguration) (fs : FS) (p : FPath) : Option String :=
  if (pathLe (themeDstP env c) p = true ∧ p ≠ themeDstP env c) ∧
      (fs.files (themeSrcP env ++ List.drop (themeDstP env c).length p)).isSome = true then
    fs.files (themeSrcP env ++ List.drop (themeDstP env c).length p)
  else if (pathLe (caTplDstP env) p = true ∧ p ≠ caTplDstP env) ∧
      (caRead env fs (List.drop (caTplDstP env).length p)).isSome = true then
    caRead env fs (List.drop (caTplDstP env).length p)
  else if (pathLe (templatesDirP env) p = true ∧ p ≠ templatesDirP env) ∧
      (fs.files (muiTemplSrcP env ++ List.drop (templatesDirP env).length p)).isSome = true then
    fs.files (muiTemplSrcP env ++ List.drop (templatesDirP env).length p)
  else if p = langDstP env then fs.files (transSrcP env "en")
  else if p = caDstP env ∧ fs.files (caDstP env) = none then fs.files (caSrcP env)
  else if p = uiDstP env ∧ (truthy (c.getattr "sidepanel_enabled") = true ∧
      fs.files (uiDstP env) = none) then fs.files (uiSrcP env)
  else if p = defaultDstP env then fs.files (defaultSrcP env)
  else if pathLe (addonsP env) p = true then none
  else if pathLe (configsP env) p = true then none
  else fs.files p

/-- The copy sequence does not touch a location that is distinct from
all copy destinations and outside all copytree destination trees, on
any exit path. -/
theorem installTail_files_untouched (env : Env) (c : MuiConfiguration) (lang : String)
    (fs5 : FS) (p : FPath)
    (h3 : p ≠ defaultDstP env) (h6 : p ≠ langDstP env)
    (h4 : p ≠ uiDstP env) (h5 : p ≠ caDstP env)
    (h7 : pathLe (templatesDirP env) p = false)
    (h8 : pathLe (caTplDstP env) p = false)
    (h9 : pathLe (themeDstP env c) p = false) :
    (installTail env c lang fs5).2.files p = fs5.files p := by
  unfold installTail
  refine fsThen_files_eq _ _ p (fs5.files p) ?_ ?_
  · rw [copy2_files_other _ _ _ _ h3]
  · intro fs6 hv6
    refine fsThen_files_eq _ _ p (fs5.files p) ?_ ?_
    · split
      · rw [copyIfAbsent_files_other _ _ _ _ h4]
        exact hv6
      · exact hv6
    · intro fs7 hv7
      refine fsThen_files_eq _ _ p (fs5.files p) ?_ ?_
      · rw [copyIfAbsent_files_other _ _ _ _ h5]
        exact hv7
      · intro fs8 hv8
        refine fsThen_files_eq _ _ p (fs5.files p) ?_ ?_
        · rw [copy2_files_other _ _ _ _ h6]
          exact hv8
        · intro fs9 hv9
          refine fsThen_files_eq _ _ p (fs5.files p) ?_ ?_
          · rw [copytreeE_files_other _ _ _ _ h7]
            exact hv9
          · intro fs10 hv10
            refine fsThen_files_eq _ _ p (fs5.files p) ?_ ?_
            · rw [copytreeE_files_other _ _ _ _ h8]
              exact hv10
            · intro fs11 hv11
              rw [copytreeE_files_other _ _ _ _ h9]
              exact hv11

theorem pathLe_root_lit_false (r : FPath) (a b : List String) (h : pathLe a b = false) :
    pathLe (r ++ a) (r ++ b) = false := by
  rw [pathLe_append_cancel]
  exact h

theorem pathLe_root_lit_true (r : FPath) (a b : List String) (h : pathLe a b = true) :
    pathLe (r ++ a) (r ++ b) = true := by
  rw [pathLe_append_cancel]
  exact h

theorem ne_root_lit (r : FPath) (a b : List String) (h : a ≠ b) : r ++ a ≠ r ++ b :=
  append_ne_append r a b h


/-- Last four steps of the copy sequence (custom-actions guarded copy,
language copy, three tree copies) in success form, for an accumulated
filesystem g7 whose relevant reads are known. -/
theorem installTail_last4 (env : Env) (c : MuiConfiguration)
    (hs1 : pathLe env.intDir env.cfgRoot = false)
    (hs2 : pathLe env.cfgRoot env.intDir = false)
    (g7 : FS) (cw : Option String) (cv lv : String)
    (hgcd_f : g7.files (caDstP env) = cw)
    (hgcd_d : g7.dirs (caDstP env) = false)
    (hgcs : g7.files (caSrcP env) = some cv)
    (hgts : g7.files (transSrcP env "en") = some lv)
    (hgmt : g7.dirs (muiTemplSrcP env) = true)
    (hgca : g7.dirs (caDirP env) = true)
    (hgth : g7.dirs (themeSrcP env) = true) :
    (fsThen (copyIfAbsent g7 (caSrcP env) (caDstP env)) fun fs8 =>
     fsThen (copy2 fs8 (transSrcP env "en") (langDstP env)) fun fs9 =>
     fsThen (copytreeE fs9 (muiTemplSrcP env) (templatesDirP env)) fun fs10 =>
     fsThen (copytreeE fs10 (caDirP env) (caTplDstP env)) fun fs11 =>
     copytreeE fs11 (themeSrcP env) (themeDstP env c)) =
    (none,
      copytreeOk (copytreeOk (copytreeOk
        (setFile (setFileOpt g7 (caDstP env) (if cw = none then some cv else none))
          (langDstP env) lv)
        (muiTemplSrcP env) (templatesDirP env))
        (caDirP env) (caTplDstP env))
        (themeSrcP env) (themeDstP env c)) := by
  have n_ts_cd : transSrcP env "en" ≠ caDstP env := ne_int_cfg hs1 hs2 _ _
  have fca_T : pathLe (caDirP env) (templatesDirP env) = false := pathLe_cfg_int_false hs1 hs2 _ _
  have fT_ca : pathLe (templatesDirP env) (caDirP env) = false := pathLe_int_cfg_false hs1 hs2 _ _
  have n_ca_T : caDirP env ≠ templatesDirP env := ne_cfg_int hs1 hs2 _ _
  have n_ths_T : themeSrcP env ≠ templatesDirP env := ne_root_lit env.intDir _ _ (by decide)
  have n_ths_cT : themeSrcP env ≠ caTplDstP env := by
    rw [caTplDstP_eq]
    exact ne_root_lit env.intDir _ _ (by decide)
  have fT_ths : pathLe (templatesDirP env) (themeSrcP env) = false :=
    pathLe_root_lit_false env.intDir _ _ rfl
  have fcT_ths : pathLe (caTplDstP env) (themeSrcP env) = false := by
    rw [caTplDstP_eq]
    exact pathLe_root_lit_false env.intDir _ _ rfl
  have S8 : copyIfAbsent g7 (caSrcP env) (caDstP env) =
      (none, setFileOpt g7 (caDstP env) (if cw = none then some cv else none)) := by
    unfold copyIfAbsent
    have hex : fsExists g7 (caDstP env) = cw.isSome := by
      rw [fsExists, hgcd_f, hgcd_d, Bool.or_false]
    rw [hex]
    cases cw with
    | none =>
      simp only [Option.isSome_none, Bool.false_eq_true, if_false, reduceIte]
      unfold copy2
      rw [hgcs]
      rfl
    | some w =>
      simp [setFileOpt]
  rw [S8]
  simp only [fsThen]
  have hd8 : ∀ z, (setFileOpt g7 (caDstP env) z).dirs = g7.dirs := by
    intro z
    funext q
    rw [dirs_setFileOpt]
  have S9 : copy2 (setFileOpt g7 (caDstP env) (if cw = none then some cv else none))
      (transSrcP env "en") (langDstP env) =
      (none, setFile (setFileOpt g7 (caDstP env) (if cw = none then some cv else none))
        (langDstP env) lv) := by
    unfold copy2
    rw [files_setFileOpt]
    rw [if_neg (by
      intro hx
      exact n_ts_cd hx.1)]
    rw [hgts]
  rw [S9]
  simp only [fsThen]
  have S10 : copytreeE
      (setFile (setFileOpt g7 (caDstP env) (if cw = none then some cv else none))
        (langDstP env) lv) (muiTemplSrcP env) (templatesDirP env) =
      (none, copytreeOk
        (setFile (setFileOpt g7 (caDstP env) (if cw = none then some cv else none))
          (langDstP env) lv) (muiTemplSrcP env) (templatesDirP env)) := by
    unfold copytreeE
    rw [dirs_setFile, dirs_setFileOpt, hgmt]
    rfl
  rw [S10]
  simp only [fsThen]
  have S11 : copytreeE (copytreeOk
      (setFile (setFileOpt g7 (caDstP env) (if cw = none then some cv else none))
        (langDstP env) lv) (muiTemplSrcP env) (templatesDirP env))
      (caDirP env) (caTplDstP env) =
      (none, copytreeOk (copytreeOk
        (setFile (setFileOpt g7 (caDstP env) (if cw = none then some cv else none))
          (langDstP env) lv) (muiTemplSrcP env) (templatesDirP env))
        (caDirP env) (caTplDstP env)) := by
    unfold copytreeE
    rw [dirs_copytreeOk]
    simp only [fT_ca, Bool.false_eq_true, false_and, or_false]
    rw [if_neg n_ca_T]
    rw [dirs_setFile, dirs_setFileOpt, hgca]
    rfl
  rw [S11]
  simp only [fsThen]
  have S12 : copytreeE (copytreeOk (copytreeOk
      (setFile (setFileOpt g7 (caDstP env) (if cw = none then some cv else none))
        (langDstP env) lv) (muiTemplSrcP env) (templatesDirP env))
      (caDirP env) (caTplDstP env)) (themeSrcP env) (themeDstP env c) =
      (none, copytreeOk (copytreeOk (copytreeOk
        (setFile (setFileOpt g7 (caDstP env) (if cw = none then some cv else none))
          (langDstP env) lv) (muiTemplSrcP env) (templatesDirP env))
        (caDirP env) (caTplDstP env)) (themeSrcP env) (themeDstP env c)) := by
    unfold copytreeE
    rw [dirs_copytreeOk]
    simp only [fcT_ths, Bool.false_eq_true, false_and, or_false]
    rw [if_neg n_ths_cT]
    rw [dirs_copytreeOk]
    simp only [fT_ths, Bool.false_eq_true, false_and, or_false]
    rw [if_neg n_ths_T]
    rw [dirs_setFile, dirs_setFileOpt, hgth]
    rfl
  rw [S12]

/-- Success form of the install pipeline: with the language attribute
at its valid value, all bundled assets present, and no directory
sitting at either guarded file destination, installFS raises nothing
and produces exactly the installFinal filesystem. -/
theorem installFS_success (env : Env) (c : MuiConfiguration) (fs : FS)
    (hs1 : pathLe env.intDir env.cfgRoot = false)
    (hs2 : pathLe env.cfgRoot env.intDir = false)
    (hlang : c.getattr "language" = PyVal.str "English (GB)")
    (hdef : (fs.files (defaultSrcP env)).isSome = true)
    (hlv : (fs.files (transSrcP env "en")).isSome = true)
    (hu : (fs.files (uiSrcP env)).isSome = true)
    (hcas : (fs.files (caSrcP env)).isSome = true)
    (hmt : fs.dirs (muiTemplSrcP env) = true)
    (hth : fs.dirs (themeSrcP env) = true)
    (hud : fs.dirs (uiDstP env) = false)
    (hcad : fs.dirs (caDstP env) = false) :
    installFS env c fs = (none, installFinal env c fs) := by
  have hl : lookupLanguage (c.getattr "language") = Except.ok "en" := by
    rw [hlang]
    rfl
  obtain ⟨dv, hdv⟩ := Option.isSome_iff_exists.mp hdef
  obtain ⟨lv, hlvv⟩ := Option.isSome_iff_exists.mp hlv
  obtain ⟨uv, huv⟩ := Option.isSome_iff_exists.mp hu
  obtain ⟨cv, hcv⟩ := Option.isSome_iff_exists.mp hcas
  have setopt_some : ∀ (g : FS) (p : FPath) (v : String),
      setFileOpt g p (some v) = setFile g p v := fun _ _ _ => rfl
  have setopt_none : ∀ (g : FS) (p : FPath), setFileOpt g p none = g := fun _ _ => rfl
  have fads : pathLe (addonsP env) (defaultSrcP env) = false := pathLe_cfg_int_false hs1 hs2 _ _
  have fcds : pathLe (configsP env) (defaultSrcP env) = false := pathLe_cfg_int_false hs1 hs2 _ _
  have faus : pathLe (addonsP env) (uiSrcP env) = false := pathLe_cfg_int_false hs1 hs2 _ _
  have fcus : pathLe (configsP env) (uiSrcP env) = false := pathLe_cfg_int_false hs1 hs2 _ _
  have facs : pathLe (addonsP env) (caSrcP env) = false := pathLe_cfg_int_false hs1 hs2 _ _
  have fccs : pathLe (configsP env) (caSrcP env) = false := pathLe_cfg_int_false hs1 hs2 _ _
  have fats : pathLe (addonsP env) (transSrcP env "en") = false := pathLe_cfg_int_false hs1 hs2 _ _
  have fcts : pathLe (configsP env) (transSrcP env "en") = false := pathLe_cfg_int_false hs1 hs2 _ _
  have faud : pathLe (addonsP env) (uiDstP env) = false := pathLe_root_lit_false env.cfgRoot _ _ rfl
  have fcud : pathLe (configsP env) (uiDstP env) = false := pathLe_root_lit_false env.cfgRoot _ _ rfl
  have facd : pathLe (addonsP env) (caDstP env) = false := pathLe_root_lit_false env.cfgRoot _ _ rfl
  have fccd : pathLe (configsP env) (caDstP env) = false := pathLe_root_lit_false env.cfgRoot _ _ rfl
  have n_ud_dd : uiDstP env ≠ defaultDstP env := by
    rw [defaultDstP_eq]
    exact ne_cfg_int hs1 hs2 _ _
  have n_cd_dd : caDstP env ≠ defaultDstP env := by
    rw [defaultDstP_eq]
    exact ne_cfg_int hs1 hs2 _ _
  have n_cd_ud : caDstP env ≠ uiDstP env := ne_root_lit env.cfgRoot _ _ (by decide)
  have n_us_dd : uiSrcP env ≠ defaultDstP env := by
    rw [defaultDstP_eq]
    exact ne_root_lit env.intDir _ _ (by decide)
  have n_cs_dd : caSrcP env ≠ defaultDstP env := by
    rw [defaultDstP_eq]
    exact ne_root_lit env.intDir _ _ (by decide)
  have n_cs_ud : caSrcP env ≠ uiDstP env := ne_int_cfg hs1 hs2 _ _
  have n_ts_dd : transSrcP env "en" ≠ defaultDstP env := by
    rw [defaultDstP_eq]
    exact ne_root_lit env.intDir _ _ (by decide)
  have n_ts_ud : transSrcP env "en" ≠ uiDstP env := ne_int_cfg hs1 hs2 _ _
  have fud_T : pathLe (uiDstP env) (templatesDirP env) = false := pathLe_cfg_int_false hs1 hs2 _ _
  have fud_ca : pathLe (uiDstP env) (caDirP env) = false := pathLe_root_lit_false env.cfgRoot _ _ rfl
  have fud_da : pathLe (uiDstP env) (dashDirP env) = false := pathLe_root_lit_false env.cfgRoot _ _ rfl
  have fcd_T : pathLe (caDstP env) (templatesDirP env) = false := pathLe_cfg_int_false hs1 hs2 _ _
  have fcd_ca : pathLe (caDstP env) (caDirP env) = false := pathLe_root_lit_false env.cfgRoot _ _ rfl
  have fcd_da : pathLe (caDstP env) (dashDirP env) = false := pathLe_root_lit_false env.cfgRoot _ _ rfl
  have fmt_T : pathLe (muiTemplSrcP env) (templatesDirP env) = false :=
    pathLe_root_lit_false env.intDir _ _ rfl
  have fmt_ca : pathLe (muiTemplSrcP env) (caDirP env) = false := pathLe_int_cfg_false hs1 hs2 _ _
  have fmt_da : pathLe (muiTemplSrcP env) (dashDirP env) = false := pathLe_int_cfg_false hs1 hs2 _ _
  have famt : pathLe (addonsP env) (muiTemplSrcP env) = false := pathLe_cfg_int_false hs1 hs2 _ _
  have fcmt : pathLe (configsP env) (muiTemplSrcP env) = false := pathLe_cfg_int_false hs1 hs2 _ _
  have fths_T : pathLe (themeSrcP env) (templatesDirP env) = false :=
    pathLe_root_lit_false env.intDir _ _ rfl
  have fths_ca : pathLe (themeSrcP env) (caDirP env) = false := pathLe_int_cfg_false hs1 hs2 _ _
  have fths_da : pathLe (themeSrcP env) (dashDirP env) = false := pathLe_int_cfg_false hs1 hs2 _ _
  have faths : pathLe (addonsP env) (themeSrcP env) = false := pathLe_cfg_int_false hs1 hs2 _ _
  have fcths : pathLe (configsP env) (themeSrcP env) = false := pathLe_cfg_int_false hs1 hs2 _ _
  have fca_T : pathLe (caDirP env) (templatesDirP env) = false := pathLe_cfg_int_false hs1 hs2 _ _
  rw [installFS_eq_ok env c fs "en" hl]
  unfold installTail
  have e1 : (mk5 env fs).files (defaultSrcP env) = some dv := by
    simp [files_mk5, files_mk4, fads, fcds, hdv]
  have S1 : copy2 (mk5 env fs) (defaultSrcP env) (defaultDstP env) =
      (none, setFile (mk5 env fs) (defaultDstP env) dv) := by
    unfold copy2
    rw [e1]
  rw [S1]
  rw [fsThen_none_eq]
  have e2f : (setFile (mk5 env fs) (defaultDstP env) dv).files (uiDstP env) =
      fs.files (uiDstP env) := by
    simp [files_setFile, n_ud_dd, files_mk5, files_mk4, faud, fcud]
  have e2d : (setFile (mk5 env fs) (defaultDstP env) dv).dirs (uiDstP env) = false := by
    simp [dirs_setFile, dirs_mk5, dirs_mk4, fud_T, fud_ca, fud_da, faud, fcud, hud]
  have e2 : fsExists (setFile (mk5 env fs) (defaultDstP env) dv) (uiDstP env) =
      (fs.files (uiDstP env)).isSome := by
    rw [fsExists, e2f, e2d, Bool.or_false]
  have G6cd_f : (setFile (mk5 env fs) (defaultDstP env) dv).files (caDstP env) =
      fs.files (caDstP env) := by
    simp [files_setFile, n_cd_dd, files_mk5, files_mk4, facd, fccd]
  have G6cd_d : (setFile (mk5 env fs) (defaultDstP env) dv).dirs (caDstP env) = false := by
    simp [dirs_setFile, dirs_mk5, dirs_mk4, fcd_T, fcd_ca, fcd_da, facd, fccd, hcad]
  have G6cs : (setFile (mk5 env fs) (defaultDstP env) dv).files (caSrcP env) = some cv := by
    simp [files_setFile, n_cs_dd, files_mk5, files_mk4, facs, fccs, hcv]
  have G6ts : (setFile (mk5 env fs) (defaultDstP env) dv).files (transSrcP env "en") =
      some lv := by
    simp [files_setFile, n_ts_dd, files_mk5, files_mk4, fats, fcts, hlvv]
  have G6mt : (setFile (mk5 env fs) (defaultDstP env) dv).dirs (muiTemplSrcP env) = true := by
    simp [dirs_setFile, dirs_mk5, dirs_mk4, fmt_T, fmt_ca, fmt_da, famt, fcmt, hmt]
  have G6ca : (setFile (mk5 env fs) (defaultDstP env) dv).dirs (caDirP env) = true := by
    simp [dirs_setFile, dirs_mk5, dirs_mk4, fca_T, pathLe_refl]
  have G6th : (setFile (mk5 env fs) (defaultDstP env) dv).dirs (themeSrcP env) = true := by
    simp [dirs_setFile, dirs_mk5, dirs_mk4, fths_T, fths_ca, fths_da, faths, fcths, hth]
  simp only [installFinal, finalT11, finalT10, finalG9]
  rw [hdv, hcv]
  simp only [setopt_some]
  by_cases hsp : truthy (c.getattr "sidepanel_enabled") = true
  · rw [if_pos hsp]
    by_cases hufd : fs.files (uiDstP env) = none
    · have e3 : (setFile (mk5 env fs) (defaultDstP env) dv).files (uiSrcP env) =
          some uv := by
        simp [files_setFile, n_us_dd, files_mk5, files_mk4, faus, fcus, huv]
      have S2 : copyIfAbsent (setFile (mk5 env fs) (defaultDstP env) dv) (uiSrcP env)
          (uiDstP env) =
          (none, setFile (setFile (mk5 env fs) (defaultDstP env) dv) (uiDstP env) uv) := by
        unfold copyIfAbsent copy2
        rw [e2, hufd]
        simp [e3]
      rw [S2, fsThen_none_eq]
      rw [if_pos ⟨hsp, hufd⟩, huv]
      simp only [setopt_some]
      rw [hlvv]
      simp only [setopt_some]
      have H1 : (setFile (setFile (mk5 env fs) (defaultDstP env) dv) (uiDstP env)
          uv).files (caDstP env) = fs.files (caDstP env) := by
        rw [files_setFile, if_neg n_cd_ud, G6cd_f]
      have H2 : (setFile (setFile (mk5 env fs) (defaultDstP env) dv) (uiDstP env)
          uv).dirs (caDstP env) = false := by
        rw [dirs_setFile, G6cd_d]
      have H3 : (setFile (setFile (mk5 env fs) (defaultDstP env) dv) (uiDstP env)
          uv).files (caSrcP env) = some cv := by
        rw [files_setFile, if_neg n_cs_ud, G6cs]
      have H4 : (setFile (setFile (mk5 env fs) (defaultDstP env) dv) (uiDstP env)
          uv).files (transSrcP env "en") = some lv := by
        rw [files_setFile, if_neg n_ts_ud, G6ts]
      have H5 : (setFile (setFile (mk5 env fs) (defaultDstP env) dv) (uiDstP env)
          uv).dirs (muiTemplSrcP env) = true := by
        rw [dirs_setFile, G6mt]
      have H6 : (setFile (setFile (mk5 env fs) (defaultDstP env) dv) (uiDstP env)
          uv).dirs (caDirP env) = true := by
        rw [dirs_setFile, G6ca]
      have H7 : (setFile (setFile (mk5 env fs) (defaultDstP env) dv) (uiDstP env)
          uv).dirs (themeSrcP env) = true := by
        rw [dirs_setFile, G6th]
      exact installTail_last4 env c hs1 hs2 _ (fs.files (caDstP env)) cv lv
        H1 H2 H3 H4 H5 H6 H7
    · have S2 : copyIfAbsent (setFile (mk5 env fs) (defaultDstP env) dv) (uiSrcP env)
          (uiDstP env) = (none, setFile (mk5 env fs) (defaultDstP env) dv) := by
        unfold copyIfAbsent
        rw [e2]
        rw [if_pos (by
          cases hx : fs.files (uiDstP env) with
          | none => exact absurd hx hufd
          | some u => rfl)]
      rw [S2, fsThen_none_eq]
      rw [if_neg (fun hx => hufd hx.2)]
      simp only [setopt_none]
      rw [hlvv]
      simp only [setopt_some]
      exact installTail_last4 env c hs1 hs2 _ (fs.files (caDstP env)) cv lv
        G6cd_f G6cd_d G6cs G6ts G6mt G6ca G6th
  · rw [if_neg hsp, fsThen_none_eq]
    rw [if_neg (fun hx => hsp hx.1)]
    simp only [setopt_none]
    rw [hlvv]
    simp only [setopt_some]
    exact installTail_last4 env c hs1 hs2 _ (fs.files (caDstP env)) cv lv
      G6cd_f G6cd_d G6cs G6ts G6mt G6ca G6th

/-- A tree copy read, with the inner option match flattened into the
copy condition. -/
theorem files_copytreeOk_ite (fs : FS) (src dst q : FPath) :
    (copytreeOk fs src dst).files q =
      if (pathLe dst q = true ∧ q ≠ dst) ∧
          (fs.files (src ++ List.drop dst.length q)).isSome = true then
        fs.files (src ++ List.drop dst.length q)
      else fs.files q := by
  rw [files_copytreeOk]
  by_cases h : pathLe dst q = true ∧ q ≠ dst
  · rw [if_pos h]
    cases hR : fs.files (src ++ List.drop dst.length q) with
    | some v => rw [if_pos ⟨h, rfl⟩]
    | none => rw [if_neg (fun hx => Bool.false_ne_true hx.2)]
  · rw [if_neg h, if_neg (fun hx => h hx.1)]

/-- A location distinct from the four write targets and outside the two
wiped directories is untouched by the write stage. -/
theorem finalG9_files_other (env : Env) (c : MuiConfiguration) (fs : FS) {q : FPath}
    (h3 : q ≠ defaultDstP env) (h4 : q ≠ uiDstP env) (h5 : q ≠ caDstP env)
    (h6 : q ≠ langDstP env)
    (ha : pathLe (addonsP env) q = false) (hc : pathLe (configsP env) q = false) :
    (finalG9 env c fs).files q = fs.files q := by
  simp [finalG9, files_setFileOpt, h3, h4, h5, h6, files_mk5, files_mk4, ha, hc]

/-- Reads below the bundled dashboard directory are unchanged by the
write stage. -/
theorem finalG9_files_dash (env : Env) (c : MuiConfiguration) (fs : FS)
    (hs1 : pathLe env.intDir env.cfgRoot = false)
    (hs2 : pathLe env.cfgRoot env.intDir = false) (rel : FPath) :
    (finalG9 env c fs).files (env.intDir ++ "dashboard" :: rel) =
      fs.files (env.intDir ++ "dashboard" :: rel) := by
  have hrefl : pathLe (env.intDir ++ "dashboard" :: rel)
      (env.intDir ++ "dashboard" :: rel) = true := pathLe_refl _
  have h3 : env.intDir ++ "dashboard" :: rel ≠ defaultDstP env := by
    rw [defaultDstP_eq]
    exact ne_sibling_point (by decide) hrefl _
  have h6 : env.intDir ++ "dashboard" :: rel ≠ langDstP env := by
    rw [langDstP_eq]
    exact ne_sibling_point (by decide) hrefl _
  have h4 : env.intDir ++ "dashboard" :: rel ≠ uiDstP env := ne_int_cfg hs1 hs2 _ _
  have h5 : env.intDir ++ "dashboard" :: rel ≠ caDstP env := ne_int_cfg hs1 hs2 _ _
  have ha : pathLe (addonsP env) (env.intDir ++ "dashboard" :: rel) = false :=
    pathLe_cfg_int_false hs1 hs2 _ _
  have hc : pathLe (configsP env) (env.intDir ++ "dashboard" :: rel) = false :=
    pathLe_cfg_int_false hs1 hs2 _ _
  exact finalG9_files_other env c fs h3 h4 h5 h6 ha hc

/-- Reads below the bundled dashboard directory are unchanged after the
template tree copy. -/
theorem finalT10_files_dash (env : Env) (c : MuiConfiguration) (fs : FS)
    (hs1 : pathLe env.intDir env.cfgRoot = false)
    (hs2 : pathLe env.cfgRoot env.intDir = false) (rel : FPath) :
    (finalT10 env c fs).files (env.intDir ++ "dashboard" :: rel) =
      fs.files (env.intDir ++ "dashboard" :: rel) := by
  have hT : pathLe (templatesDirP env) (env.intDir ++ "dashboard" :: rel) = false :=
    notin_sibling_branch (by decide) (pathLe_refl (env.intDir ++ "dashboard" :: rel)) _
  show (copytreeOk (finalG9 env c fs) (muiTemplSrcP env) (templatesDirP env)).files _ = _
  rw [files_copytreeOk_ite,
    if_neg (fun hx => by rw [hT] at hx; exact Bool.false_ne_true hx.1.1)]
  exact finalG9_files_dash env c fs hs1 hs2 rel

/-- Reads below the bundled dashboard directory are unchanged after the
custom-actions tree copy. -/
theorem finalT11_files_dash (env : Env) (c : MuiConfiguration) (fs : FS)
    (hs1 : pathLe env.intDir env.cfgRoot = false)
    (hs2 : pathLe env.cfgRoot env.intDir = false) (rel : FPath) :
    (finalT11 env c fs).files (env.intDir ++ "dashboard" :: rel) =
      fs.files (env.intDir ++ "dashboard" :: rel) := by
  have hcT : pathLe (caTplDstP env) (env.intDir ++ "dashboard" :: rel) = false := by
    rw [caTplDstP_eq]
    exact notin_sibling_branch (by decide)
      (pathLe_refl (env.intDir ++ "dashboard" :: rel)) _
  show (copytreeOk (finalT10 env c fs) (caDirP env) (caTplDstP env)).files _ = _
  rw [files_copytreeOk_ite,
    if_neg (fun hx => by rw [hcT] at hx; exact Bool.false_ne_true hx.1.1)]
  exact finalT10_files_dash env c fs hs1 hs2 rel

/-- What the custom-actions tree copy reads below minimalist_ui/custom_actions
after the write stage and the template copy: exactly caRead. -/
theorem finalT10_files_caDir (env : Env) (c : MuiConfiguration) (fs : FS)
    (hs1 : pathLe env.intDir env.cfgRoot = false)
    (hs2 : pathLe env.cfgRoot env.intDir = false) (rel : FPath) :
    (finalT10 env c fs).files (caDirP env ++ rel) = caRead env fs rel := by
  have hshape : caDirP env ++ rel =
      env.cfgRoot ++ "minimalist_ui" :: "custom_actions" :: rel := by
    rw [caDirP_eq, List.append_assoc]
    rfl
  have hrefl1 : pathLe (env.cfgRoot ++ "minimalist_ui" :: "custom_actions" :: rel)
      (caDirP env ++ rel) = true := by
    rw [hshape]
    exact pathLe_refl _
  have hT : pathLe (templatesDirP env) (caDirP env ++ rel) = false :=
    notin_int_tree hs1 hs2 hrefl1 _
  show (copytreeOk (finalG9 env c fs) (muiTemplSrcP env) (templatesDirP env)).files _ = _
  rw [files_copytreeOk_ite,
    if_neg (fun hx => by rw [hT] at hx; exact Bool.false_ne_true hx.1.1)]
  by_cases hca : caDirP env ++ rel = caDstP env
  · unfold caRead
    rw [if_pos hca, hca]
    have n6 : caDstP env ≠ langDstP env := by
      rw [langDstP_eq]
      exact ne_cfg_int hs1 hs2 _ _
    have n4 : caDstP env ≠ uiDstP env := ne_root_lit env.cfgRoot _ _ (by decide)
    have n3 : caDstP env ≠ defaultDstP env := by
      rw [defaultDstP_eq]
      exact ne_cfg_int hs1 hs2 _ _
    have facd : pathLe (addonsP env) (caDstP env) = false :=
      pathLe_root_lit_false env.cfgRoot _ _ rfl
    have fccd : pathLe (configsP env) (caDstP env) = false :=
      pathLe_root_lit_false env.cfgRoot _ _ rfl
    cases hd : fs.files (caDstP env) with
    | some w =>
      simp [finalG9, files_setFileOpt, n6, n4, n3, files_mk5, files_mk4,
        facd, fccd, hd]
    | none =>
      simp only [finalG9, files_setFileOpt, files_mk5, files_mk4]
      simp [n6, n4, n3, facd, fccd, hd]
      cases ho : fs.files (caSrcP env) with
      | some v => simp [ho]
      | none => simp [ho]
  · unfold caRead
    rw [if_neg hca]
    have hshape2 : caDirP env ++ rel =
        (env.cfgRoot ++ ["minimalist_ui"]) ++ "custom_actions" :: rel := by
      rw [caDirP_eq, List.append_assoc, List.append_assoc]
      rfl
    have hrefl2 : pathLe ((env.cfgRoot ++ ["minimalist_ui"]) ++ "custom_actions" :: rel)
        (caDirP env ++ rel) = true := by
      rw [hshape2]
      exact pathLe_refl _
    have n4 : caDirP env ++ rel ≠ uiDstP env := by
      rw [show uiDstP env = (env.cfgRoot ++ ["minimalist_ui"]) ++ ["dashboard", "ui.yaml"]
        from by rw [uiDstP_eq, List.append_assoc]; rfl]
      exact ne_sibling_point (by decide) hrefl2 _
    have n3 : caDirP env ++ rel ≠ defaultDstP env := by
      rw [defaultDstP_eq]
      exact ne_int_point hs1 hs2 hrefl1 _
    have n6 : caDirP env ++ rel ≠ langDstP env := by
      rw [langDstP_eq]
      exact ne_int_point hs1 hs2 hrefl1 _
    have ha : pathLe (addonsP env) (caDirP env ++ rel) = false := by
      rw [show addonsP env = (env.cfgRoot ++ ["minimalist_ui"]) ++ ["addons"]
        from by rw [addonsP_eq, List.append_assoc]; rfl]
      exact notin_sibling_branch (by decide) hrefl2 _
    have hcf : pathLe (configsP env) (caDirP env ++ rel) = false := by
      rw [show configsP env = (env.cfgRoot ++ ["minimalist_ui"]) ++ ["configs"]
        from by rw [configsP_eq, List.append_assoc]; rfl]
      exact notin_sibling_branch (by decide) hrefl2 _
    exact finalG9_files_other env c fs n3 n4 hca n6 ha hcf

/-- Pointwise characterization of the successful-run result filesystem:
every location holds exactly the content predicted by instResult,
assuming the bundled source files are present. -/
theorem installFinal_files_char (env : Env) (c : MuiConfiguration) (fs : FS) (p : FPath)
    (hs1 : pathLe env.intDir env.cfgRoot = false)
    (hs2 : pathLe env.cfgRoot env.intDir = false)
    (hdef : (fs.files (defaultSrcP env)).isSome = true)
    (hlv : (fs.files (transSrcP env "en")).isSome = true)
    (hu : (fs.files (uiSrcP env)).isSome = true)
    (hcas : (fs.files (caSrcP env)).isSome = true) :
    (installFinal env c fs).files p = instResult env c fs p := by
  have hR1 : (finalT11 env c fs).files
      (themeSrcP env ++ List.drop (themeDstP env c).length p) =
      fs.files (themeSrcP env ++ List.drop (themeDstP env c).length p) := by
    have hsh : themeSrcP env ++ List.drop (themeDstP env c).length p =
        env.intDir ++ "dashboard" :: "themefiles" ::
          List.drop (themeDstP env c).length p := by
      rw [themeSrcP_eq, List.append_assoc]
      rfl
    rw [hsh]
    exact finalT11_files_dash env c fs hs1 hs2 _
  have hR3 : (finalG9 env c fs).files
      (muiTemplSrcP env ++ List.drop (templatesDirP env).length p) =
      fs.files (muiTemplSrcP env ++ List.drop (templatesDirP env).length p) := by
    have hsh : muiTemplSrcP env ++ List.drop (templatesDirP env).length p =
        env.intDir ++ "dashboard" :: "mui_templates" ::
          List.drop (templatesDirP env).length p := by
      rw [muiTemplSrcP_eq, List.append_assoc]
      rfl
    rw [hsh]
    exact finalG9_files_dash env c fs hs1 hs2 _
  have hT11eq : (finalT11 env c fs).files p =
      if (pathLe (caTplDstP env) p = true ∧ p ≠ caTplDstP env) ∧
          (caRead env fs (List.drop (caTplDstP env).length p)).isSome = true then
        caRead env fs (List.drop (caTplDstP env).length p)
      else (finalT10 env c fs).files p := by
    show (copytreeOk (finalT10 env c fs) (caDirP env) (caTplDstP env)).files p = _
    rw [files_copytreeOk_ite, finalT10_files_caDir env c fs hs1 hs2 _]
  have hT10eq : (finalT10 env c fs).files p =
      if (pathLe (templatesDirP env) p = true ∧ p ≠ templatesDirP env) ∧
          (fs.files (muiTemplSrcP env ++
            List.drop (templatesDirP env).length p)).isSome = true then
        fs.files (muiTemplSrcP env ++ List.drop (templatesDirP env).length p)
      else (finalG9 env c fs).files p := by
    show (copytreeOk (finalG9 env c fs) (muiTemplSrcP env) (templatesDirP env)).files p = _
    rw [files_copytreeOk_ite, hR3]
  show (copytreeOk (finalT11 env c fs) (themeSrcP env) (themeDstP env c)).files p = _
  rw [files_copytreeOk_ite, hR1, hT11eq, hT10eq]
  unfold instResult
  refine if_congr Iff.rfl rfl (if_congr Iff.rfl rfl (if_congr Iff.rfl rfl ?_))
  by_cases hcd : fs.files (caDstP env) = none <;>
    by_cases hgu : truthy (c.getattr "sidepanel_enabled") = true ∧
      fs.files (uiDstP env) = none <;>
    simp [finalG9, files_setFileOpt, files_mk5, files_mk4, hlv, hdef, hu, hcas, hcd, hgu]

theorem ne_of_pathLe_false {a b : FPath} (h : pathLe a b = false) : b ≠ a := by
  intro he
  subst he
  rw [pathLe_refl] at h
  exact Bool.false_ne_true h.symm

/-- Reads below the bundled dashboard directory are unchanged by a full
successful install run. -/
theorem installFinal_files_dash (env : Env) (c : MuiConfiguration) (fs : FS)
    (hs1 : pathLe env.intDir env.cfgRoot = false)
    (hs2 : pathLe env.cfgRoot env.intDir = false) (rel : FPath) :
    (installFinal env c fs).files (env.intDir ++ "dashboard" :: rel) =
      fs.files (env.intDir ++ "dashboard" :: rel) := by
  have hth : pathLe (themeDstP env c) (env.intDir ++ "dashboard" :: rel) = false :=
    pathLe_cfg_int_false hs1 hs2 _ _
  show (copytreeOk (finalT11 env c fs) (themeSrcP env) (themeDstP env c)).files _ = _
  rw [files_copytreeOk_ite,
    if_neg (fun hx => by rw [hth] at hx; exact Bool.false_ne_true hx.1.1)]
  exact finalT11_files_dash env c fs hs1 hs2 rel

theorem dirs_copytreeOk_mono (fs : FS) (src dst q : FPath) (h : fs.dirs q = true) :
    (copytreeOk fs src dst).dirs q = true := by
  rw [dirs_copytreeOk]
  split
  · rfl
  · exact h

theorem dirs_copytreeOk_skip (fs : FS) (src dst q : FPath)
    (h1 : q ≠ dst) (h2 : pathLe dst q = false) :
    (copytreeOk fs src dst).dirs q = fs.dirs q := by
  have hn : ¬(q = dst ∨ (pathLe dst q = true ∧
      fs.dirs (src ++ List.drop dst.length q) = true)) := by
    rintro (he | ⟨hl, _⟩)
    · exact h1 he
    · rw [h2] at hl
      exact Bool.false_ne_true hl
  rw [dirs_copytreeOk, if_neg hn]

theorem dirs_finalG9 (env : Env) (c : MuiConfiguration) (fs : FS) (q : FPath) :
    (finalG9 env c fs).dirs q = (mk5 env fs).dirs q := by
  simp [finalG9, dirs_setFileOpt]

/-- A directory outside the wiped and created regions stays a directory
through a full successful install run. -/
theorem installFinal_dirs_true (env : Env) (c : MuiConfiguration) (fs : FS) (q : FPath)
    (h : fs.dirs q = true)
    (h1 : pathLe q (caDirP env) = false) (h2 : pathLe q (dashDirP env) = false)
    (h3 : pathLe q (templatesDirP env) = false)
    (ha : pathLe (addonsP env) q = false) (hc : pathLe (configsP env) q = false) :
    (installFinal env c fs).dirs q = true := by
  show (copytreeOk (finalT11 env c fs) (themeSrcP env) (themeDstP env c)).dirs q = true
  apply dirs_copytreeOk_mono
  show (copytreeOk (finalT10 env c fs) (caDirP env) (caTplDstP env)).dirs q = true
  apply dirs_copytreeOk_mono
  show (copytreeOk (finalG9 env c fs) (muiTemplSrcP env) (templatesDirP env)).dirs q = true
  apply dirs_copytreeOk_mono
  rw [dirs_finalG9, dirs_mk5, dirs_mk4]
  simp [h, h1, h2, h3, ha, hc]

/-- A location outside every directory-creating or removing region of a
successful run keeps its directory flag. -/
theorem installFinal_dirs_keep (env : Env) (c : MuiConfiguration) (fs : FS) (q : FPath)
    (h1 : pathLe q (caDirP env) = false) (h2 : pathLe q (dashDirP env) = false)
    (h3 : pathLe q (templatesDirP env) = false)
    (ha : pathLe (addonsP env) q = false) (hc : pathLe (configsP env) q = false)
    (hT : q ≠ templatesDirP env) (hTl : pathLe (templatesDirP env) q = false)
    (hcT : q ≠ caTplDstP env) (hcTl : pathLe (caTplDstP env) q = false)
    (hthn : q ≠ themeDstP env c) (hthl : pathLe (themeDstP env c) q = false) :
    (installFinal env c fs).dirs q = fs.dirs q := by
  show (copytreeOk (finalT11 env c fs) (themeSrcP env) (themeDstP env c)).dirs q = _
  rw [dirs_copytreeOk_skip _ _ _ _ hthn hthl]
  show (copytreeOk (finalT10 env c fs) (caDirP env) (caTplDstP env)).dirs q = _
  rw [dirs_copytreeOk_skip _ _ _ _ hcT hcTl]
  show (copytreeOk (finalG9 env c fs) (muiTemplSrcP env) (templatesDirP env)).dirs q = _
  rw [dirs_copytreeOk_skip _ _ _ _ hT hTl]
  rw [dirs_finalG9, dirs_mk5, dirs_mk4]
  simp [h1, h2, h3, ha, hc]

/-- Content of the guarded custom-actions destination after a successful
run: the bundled file if it was absent, otherwise the preexisting file. -/
theorem installFinal_files_caDst (env : Env) (c : MuiConfiguration) (fs : FS)
    (hs1 : pathLe env.intDir env.cfgRoot = false)
    (hs2 : pathLe env.cfgRoot env.intDir = false)
    (htp1 : strToPath (pyFormat (c.getattr "theme_path") ++ "/") ≠ [])
    (htp2 : (strToPath (pyFormat (c.getattr "theme_path") ++ "/")).head? ≠
      some "minimalist_ui")
    (hdef : (fs.files (defaultSrcP env)).isSome = true)
    (hlv : (fs.files (transSrcP env "en")).isSome = true)
    (hu : (fs.files (uiSrcP env)).isSome = true)
    (hcas : (fs.files (caSrcP env)).isSome = true) :
    (installFinal env c fs).files (caDstP env) =
      (if fs.files (caDstP env) = none then fs.files (caSrcP env)
       else fs.files (caDstP env)) := by
  rw [installFinal_files_char env c fs _ hs1 hs2 hdef hlv hu hcas]
  unfold instResult
  have f1 : pathLe (themeDstP env c) (caDstP env) = false := by
    rw [caDstP_eq]
    exact pathLe_theme_mui_false htp1 htp2 _ _
  have f2 : pathLe (caTplDstP env) (caDstP env) = false := by
    rw [caTplDstP_eq]
    exact pathLe_int_cfg_false hs1 hs2 _ _
  have f3 : pathLe (templatesDirP env) (caDstP env) = false :=
    pathLe_int_cfg_false hs1 hs2 _ _
  have f4 : caDstP env ≠ langDstP env := by
    rw [langDstP_eq]
    exact ne_cfg_int hs1 hs2 _ _
  have f5 : caDstP env ≠ uiDstP env := ne_root_lit env.cfgRoot _ _ (by decide)
  have f6 : caDstP env ≠ defaultDstP env := by
    rw [defaultDstP_eq]
    exact ne_cfg_int hs1 hs2 _ _
  have f7 : pathLe (addonsP env) (caDstP env) = false :=
    pathLe_root_lit_false env.cfgRoot _ _ rfl
  have f8 : pathLe (configsP env) (caDstP env) = false :=
    pathLe_root_lit_false env.cfgRoot _ _ rfl
  rw [if_neg (fun hx => by rw [f1] at hx; exact Bool.false_ne_true hx.1.1),
    if_neg (fun hx => by rw [f2] at hx; exact Bool.false_ne_true hx.1.1),
    if_neg (fun hx => by rw [f3] at hx; exact Bool.false_ne_true hx.1.1),
    if_neg f4]
  by_cases hcd : fs.files (caDstP env) = none
  · rw [if_pos ⟨rfl, hcd⟩, if_pos hcd]
  · rw [if_neg (fun hx => hcd hx.2), if_neg hcd,
      if_neg (fun hx => f5 hx.1), if_neg f6,
      if_neg (fun hx => by rw [f7] at hx; exact Bool.false_ne_true hx),
      if_neg (fun hx => by rw [f8] at hx; exact Bool.false_ne_true hx)]

/-- Content of the guarded dashboard destination after a successful run:
the bundled ui.yaml if the sidepanel copy fired, otherwise the
preexisting content. -/
theorem installFinal_files_uiDst (env : Env) (c : MuiConfiguration) (fs : FS)
    (hs1 : pathLe env.intDir env.cfgRoot = false)
    (hs2 : pathLe env.cfgRoot env.intDir = false)
    (htp1 : strToPath (pyFormat (c.getattr "theme_path") ++ "/") ≠ [])
    (htp2 : (strToPath (pyFormat (c.getattr "theme_path") ++ "/")).head? ≠
      some "minimalist_ui")
    (hdef : (fs.files (defaultSrcP env)).isSome = true)
    (hlv : (fs.files (transSrcP env "en")).isSome = true)
    (hu : (fs.files (uiSrcP env)).isSome = true)
    (hcas : (fs.files (caSrcP env)).isSome = true) :
    (installFinal env c fs).files (uiDstP env) =
      (if truthy (c.getattr "sidepanel_enabled") = true ∧
          fs.files (uiDstP env) = none then fs.files (uiSrcP env)
       else fs.files (uiDstP env)) := by
  rw [installFinal_files_char env c fs _ hs1 hs2 hdef hlv hu hcas]
  unfold instResult
  have f1 : pathLe (themeDstP env c) (uiDstP env) = false := by
    rw [uiDstP_eq]
    exact pathLe_theme_mui_false htp1 htp2 _ _
  have f2 : pathLe (caTplDstP env) (uiDstP env) = false := by
    rw [caTplDstP_eq]
    exact pathLe_int_cfg_false hs1 hs2 _ _
  have f3 : pathLe (templatesDirP env) (uiDstP env) = false :=
    pathLe_int_cfg_false hs1 hs2 _ _
  have f4 : uiDstP env ≠ langDstP env := by
    rw [langDstP_eq]
    exact ne_cfg_int hs1 hs2 _ _
  have f5 : uiDstP env ≠ caDstP env := ne_root_lit env.cfgRoot _ _ (by decide)
  have f6 : uiDstP env ≠ defaultDstP env := by
    rw [defaultDstP_eq]
    exact ne_cfg_int hs1 hs2 _ _
  have f7 : pathLe (addonsP env) (uiDstP env) = false :=
    pathLe_root_lit_false env.cfgRoot _ _ rfl
  have f8 : pathLe (configsP env) (uiDstP env) = false :=
    pathLe_root_lit_false env.cfgRoot _ _ rfl
  rw [if_neg (fun hx => by rw [f1] at hx; exact Bool.false_ne_true hx.1.1),
    if_neg (fun hx => by rw [f2] at hx; exact Bool.false_ne_true hx.1.1),
    if_neg (fun hx => by rw [f3] at hx; exact Bool.false_ne_true hx.1.1),
    if_neg f4, if_neg (fun hx => f5 hx.1)]
  by_cases hgu : truthy (c.getattr "sidepanel_enabled") = true ∧
      fs.files (uiDstP env) = none
  · rw [if_pos ⟨rfl, hgu⟩, if_pos hgu]
  · rw [if_neg (fun hx => hgu hx.2), if_neg hgu, if_neg f6,
      if_neg (fun hx => by rw [f7] at hx; exact Bool.false_ne_true hx),
      if_neg (fun hx => by rw [f8] at hx; exact Bool.false_ne_true hx)]

/-- What the custom-actions tree copy would read on a second run equals
what it read on the first run. -/
theorem caRead_stable (env : Env) (c : MuiConfiguration) (fs : FS) (rel : FPath)
    (hs1 : pathLe env.intDir env.cfgRoot = false)
    (hs2 : pathLe env.cfgRoot env.intDir = false)
    (htp1 : strToPath (pyFormat (c.getattr "theme_path") ++ "/") ≠ [])
    (htp2 : (strToPath (pyFormat (c.getattr "theme_path") ++ "/")).head? ≠
      some "minimalist_ui")
    (hdef : (fs.files (defaultSrcP env)).isSome = true)
    (hlv : (fs.files (transSrcP env "en")).isSome = true)
    (hu : (fs.files (uiSrcP env)).isSome = true)
    (hcas : (fs.files (caSrcP env)).isSome = true) :
    caRead env (installFinal env c fs) rel = caRead env fs rel := by
  by_cases hca : caDirP env ++ rel = caDstP env
  · unfold caRead
    rw [if_pos hca, if_pos hca,
      installFinal_files_caDst env c fs hs1 hs2 htp1 htp2 hdef hlv hu hcas,
      show (installFinal env c fs).files (caSrcP env) = fs.files (caSrcP env) from by
        rw [caSrcP_eq]; exact installFinal_files_dash env c fs hs1 hs2 _]
    cases ho : fs.files (caDstP env) with
    | none => simp [ho]
    | some w => simp [ho]
  · have hshape : caDirP env ++ rel =
        env.cfgRoot ++ "minimalist_ui" :: "custom_actions" :: rel := by
      rw [caDirP_eq, List.append_assoc]
      rfl
    have hrefl1 : pathLe (env.cfgRoot ++ "minimalist_ui" :: "custom_actions" :: rel)
        (caDirP env ++ rel) = true := by
      rw [hshape]
      exact pathLe_refl _
    have hth : pathLe (themeDstP env c) (caDirP env ++ rel) = false := by
      rw [hshape]
      exact pathLe_theme_mui_false htp1 htp2 _ _
    have hcT : pathLe (caTplDstP env) (caDirP env ++ rel) = false := by
      rw [caTplDstP_eq]
      exact notin_int_tree hs1 hs2 hrefl1 _
    unfold caRead
    rw [if_neg hca, if_neg hca]
    show (copytreeOk (finalT11 env c fs) (themeSrcP env) (themeDstP env c)).files _ = _
    rw [files_copytreeOk_ite,
      if_neg (fun hx => by rw [hth] at hx; exact Bool.false_ne_true hx.1.1)]
    show (copytreeOk (finalT10 env c fs) (caDirP env) (caTplDstP env)).files _ = _
    rw [files_copytreeOk_ite,
      if_neg (fun hx => by rw [hcT] at hx; exact Bool.false_ne_true hx.1.1)]
    rw [finalT10_files_caDir env c fs hs1 hs2 rel]
    unfold caRead
    rw [if_neg hca]

/-- Tail of the run-twice comparison from the default-translation write
down, once both guarded copies are known not to fire. -/
theorem instResult_stable_tail2 (env : Env) (c : MuiConfiguration) (fs : FS) (p : FPath)
    (hs1 : pathLe env.intDir env.cfgRoot = false)
    (hs2 : pathLe env.cfgRoot env.intDir = false)
    (hdef : (fs.files (defaultSrcP env)).isSome = true)
    (hlv : (fs.files (transSrcP env "en")).isSome = true)
    (hu : (fs.files (uiSrcP env)).isSome = true)
    (hcas : (fs.files (caSrcP env)).isSome = true)
    (hA : ¬((pathLe (themeDstP env c) p = true ∧ p ≠ themeDstP env c) ∧
      (fs.files (themeSrcP env ++
        List.drop (themeDstP env c).length p)).isSome = true))
    (hB : ¬((pathLe (caTplDstP env) p = true ∧ p ≠ caTplDstP env) ∧
      (caRead env fs (List.drop (caTplDstP env).length p)).isSome = true))
    (hC : ¬((pathLe (templatesDirP env) p = true ∧ p ≠ templatesDirP env) ∧
      (fs.files (muiTemplSrcP env ++
        List.drop (templatesDirP env).length p)).isSome = true))
    (hL : p ≠ langDstP env)
    (hP5 : ¬(p = caDstP env ∧ fs.files (caDstP env) = none))
    (hP6 : ¬(p = uiDstP env ∧ (truthy (c.getattr "sidepanel_enabled") = true ∧
      fs.files (uiDstP env) = none))) :
    (if p = defaultDstP env then fs.files (defaultSrcP env)
     else if pathLe (addonsP env) p = true then none
     else if pathLe (configsP env) p = true then none
     else (installFinal env c fs).files p)
    = (if p = defaultDstP env then fs.files (defaultSrcP env)
       else if pathLe (addonsP env) p = true then none
       else if pathLe (configsP env) p = true then none
       else fs.files p) := by
  by_cases hpd : p = defaultDstP env
  · rw [if_pos hpd, if_pos hpd]
  · rw [if_neg hpd, if_neg hpd]
    by_cases hw1 : pathLe (addonsP env) p = true
    · rw [if_pos hw1, if_pos hw1]
    · rw [if_neg hw1, if_neg hw1]
      by_cases hw2 : pathLe (configsP env) p = true
      · rw [if_pos hw2, if_pos hw2]
      · rw [if_neg hw2, if_neg hw2,
          installFinal_files_char env c fs p hs1 hs2 hdef hlv hu hcas]
        unfold instResult
        rw [if_neg hA, if_neg hB, if_neg hC, if_neg hL, if_neg hP5, if_neg hP6,
          if_neg hpd, if_neg hw1, if_neg hw2]

/-- Tail of the run-twice comparison from the guarded dashboard copy
down, once the guarded custom-actions copy is known not to fire. -/
theorem instResult_stable_tail (env : Env) (c : MuiConfiguration) (fs : FS) (p : FPath)
    (hs1 : pathLe env.intDir env.cfgRoot = false)
    (hs2 : pathLe env.cfgRoot env.intDir = false)
    (htp1 : strToPath (pyFormat (c.getattr "theme_path") ++ "/") ≠ [])
    (htp2 : (strToPath (pyFormat (c.getattr "theme_path") ++ "/")).head? ≠
      some "minimalist_ui")
    (hdef : (fs.files (defaultSrcP env)).isSome = true)
    (hlv : (fs.files (transSrcP env "en")).isSome = true)
    (hu : (fs.files (uiSrcP env)).isSome = true)
    (hcas : (fs.files (caSrcP env)).isSome = true)
    (hA : ¬((pathLe (themeDstP env c) p = true ∧ p ≠ themeDstP env c) ∧
      (fs.files (themeSrcP env ++
        List.drop (themeDstP env c).length p)).isSome = true))
    (hB : ¬((pathLe (caTplDstP env) p = true ∧ p ≠ caTplDstP env) ∧
      (caRead env fs (List.drop (caTplDstP env).length p)).isSome = true))
    (hC : ¬((pathLe (templatesDirP env) p = true ∧ p ≠ templatesDirP env) ∧
      (fs.files (muiTemplSrcP env ++
        List.drop (templatesDirP env).length p)).isSome = true))
    (hL : p ≠ langDstP env)
    (hP5 : ¬(p = caDstP env ∧ fs.files (caDstP env) = none)) :
    (if p = uiDstP env ∧ (truthy (c.getattr "sidepanel_enabled") = true ∧
        (installFinal env c fs).files (uiDstP env) = none) then fs.files (uiSrcP env)
     else if p = defaultDstP env then fs.files (defaultSrcP env)
     else if pathLe (addonsP env) p = true then none
     else if pathLe (configsP env) p = true then none
     else (installFinal env c fs).files p)
    = (if p = uiDstP env ∧ (truthy (c.getattr "sidepanel_enabled") = true ∧
        fs.files (uiDstP env) = none) then fs.files (uiSrcP env)
       else if p = defaultDstP env then fs.files (defaultSrcP env)
       else if pathLe (addonsP env) p = true then none
       else if pathLe (configsP env) p = true then none
       else fs.files p) := by
  have hUd := installFinal_files_uiDst env c fs hs1 hs2 htp1 htp2 hdef hlv hu hcas
  rw [hUd]
  by_cases hgu : truthy (c.getattr "sidepanel_enabled") = true ∧
      fs.files (uiDstP env) = none
  · obtain ⟨w, hw⟩ := Option.isSome_iff_exists.mp hu
    simp only [if_pos hgu]
    rw [if_neg (fun hx => by rw [hw] at hx; exact Option.some_ne_none w hx.2.2)]
    by_cases hpu : p = uiDstP env
    · rw [if_pos (And.intro hpu hgu)]
      have hnd : p ≠ defaultDstP env := by
        rw [hpu, defaultDstP_eq]
        exact ne_cfg_int hs1 hs2 _ _
      have hw1 : pathLe (addonsP env) p = false := by
        rw [hpu]
        exact pathLe_root_lit_false env.cfgRoot _ _ rfl
      have hw2 : pathLe (configsP env) p = false := by
        rw [hpu]
        exact pathLe_root_lit_false env.cfgRoot _ _ rfl
      rw [if_neg hnd,
        if_neg (fun hx => by rw [hw1] at hx; exact Bool.false_ne_true hx),
        if_neg (fun hx => by rw [hw2] at hx; exact Bool.false_ne_true hx),
        installFinal_files_char env c fs p hs1 hs2 hdef hlv hu hcas]
      unfold instResult
      rw [if_neg hA, if_neg hB, if_neg hC, if_neg hL, if_neg hP5,
        if_pos (And.intro hpu hgu)]
    · rw [if_neg (show ¬(p = uiDstP env ∧ (truthy (c.getattr "sidepanel_enabled") = true ∧
        fs.files (uiDstP env) = none)) from fun hx => hpu hx.1)]
      exact instResult_stable_tail2 env c fs p hs1 hs2 hdef hlv hu hcas
        hA hB hC hL hP5 (fun hx => hpu hx.1)
  · simp only [if_neg hgu]
    rw [if_neg (show ¬(p = uiDstP env ∧ (truthy (c.getattr "sidepanel_enabled") = true ∧
        fs.files (uiDstP env) = none)) from fun hx => hgu hx.2),
      if_neg (show ¬(p = uiDstP env ∧ (truthy (c.getattr "sidepanel_enabled") = true ∧
        fs.files (uiDstP env) = none)) from fun hx => hgu hx.2)]
    exact instResult_stable_tail2 env c fs p hs1 hs2 hdef hlv hu hcas
      hA hB hC hL hP5 (fun hx => hgu hx.2)

/-- Running the install result spec on the first run's output gives the
same content at every location as on the first run's input. -/
theorem instResult_stable (env : Env) (c : MuiConfiguration) (fs : FS) (p : FPath)
    (hs1 : pathLe env.intDir env.cfgRoot = false)
    (hs2 : pathLe env.cfgRoot env.intDir = false)
    (htp1 : strToPath (pyFormat (c.getattr "theme_path") ++ "/") ≠ [])
    (htp2 : (strToPath (pyFormat (c.getattr "theme_path") ++ "/")).head? ≠
      some "minimalist_ui")
    (hdef : (fs.files (defaultSrcP env)).isSome = true)
    (hlv : (fs.files (transSrcP env "en")).isSome = true)
    (hu : (fs.files (uiSrcP env)).isSome = true)
    (hcas : (fs.files (caSrcP env)).isSome = true) :
    instResult env c (installFinal env c fs) p = instResult env c fs p := by
  have hTh : (installFinal env c fs).files
      (themeSrcP env ++ List.drop (themeDstP env c).length p) =
      fs.files (themeSrcP env ++ List.drop (themeDstP env c).length p) := by
    rw [show themeSrcP env ++ List.drop (themeDstP env c).length p =
      env.intDir ++ "dashboard" :: "themefiles" :: List.drop (themeDstP env c).length p
      from by rw [themeSrcP_eq, List.append_assoc]; rfl]
    exact installFinal_files_dash env c fs hs1 hs2 _
  have hMu : (installFinal env c fs).files
      (muiTemplSrcP env ++ List.drop (templatesDirP env).length p) =
      fs.files (muiTemplSrcP env ++ List.drop (templatesDirP env).length p) := by
    rw [show muiTemplSrcP env ++ List.drop (templatesDirP env).length p =
      env.intDir ++ "dashboard" :: "mui_templates" :: List.drop (templatesDirP env).length p
      from by rw [muiTemplSrcP_eq, List.append_assoc]; rfl]
    exact installFinal_files_dash env c fs hs1 hs2 _
  have hLv : (installFinal env c fs).files (transSrcP env "en") =
      fs.files (transSrcP env "en") :=
    installFinal_files_dash env c fs hs1 hs2 _
  have hCs : (installFinal env c fs).files (caSrcP env) = fs.files (caSrcP env) := by
    rw [caSrcP_eq]
    exact installFinal_files_dash env c fs hs1 hs2 _
  have hDs : (installFinal env c fs).files (defaultSrcP env) =
      fs.files (defaultSrcP env) := by
    rw [defaultSrcP_eq]
    exact installFinal_files_dash env c fs hs1 hs2 _
  have hUs : (installFinal env c fs).files (uiSrcP env) = fs.files (uiSrcP env) := by
    rw [uiSrcP_eq]
    exact installFinal_files_dash env c fs hs1 hs2 _
  have hCaR := caRead_stable env c fs (List.drop (caTplDstP env).length p)
    hs1 hs2 htp1 htp2 hdef hlv hu hcas
  have hCd := installFinal_files_caDst env c fs hs1 hs2 htp1 htp2 hdef hlv hu hcas
  unfold instResult
  rw [hTh, hCaR, hMu, hLv, hCs, hDs, hUs, hCd]
  by_cases hA : (pathLe (themeDstP env c) p = true ∧ p ≠ themeDstP env c) ∧
      (fs.files (themeSrcP env ++ List.drop (themeDstP env c).length p)).isSome = true
  · rw [if_pos hA, if_pos hA]
  · rw [if_neg hA, if_neg hA]
    by_cases hB : (pathLe (caTplDstP env) p = true ∧ p ≠ caTplDstP env) ∧
        (caRead env fs (List.drop (caTplDstP env).length p)).isSome = true
    · rw [if_pos hB, if_pos hB]
    · rw [if_neg hB, if_neg hB]
      by_cases hC : (pathLe (templatesDirP env) p = true ∧ p ≠ templatesDirP env) ∧
          (fs.files (muiTemplSrcP env ++
            List.drop (templatesDirP env).length p)).isSome = true
      · rw [if_pos hC, if_pos hC]
      · rw [if_neg hC, if_neg hC]
        by_cases hL : p = langDstP env
        · rw [if_pos hL, if_pos hL]
        · rw [if_neg hL, if_neg hL]
          by_cases hcd : fs.files (caDstP env) = none
          · obtain ⟨w, hw⟩ := Option.isSome_iff_exists.mp hcas
            simp only [if_pos hcd]
            rw [if_neg (show ¬(p = caDstP env ∧ fs.files (caSrcP env) = none) from
              fun hx => by rw [hw] at hx; exact Option.some_ne_none w hx.2)]
            by_cases hpc : p = caDstP env
            · rw [if_pos (And.intro hpc hcd)]
              have hne : p ≠ uiDstP env := by
                rw [hpc]
                exact ne_root_lit env.cfgRoot _ _ (by decide)
              rw [if_neg (show ¬(p = uiDstP env ∧
                (truthy (c.getattr "sidepanel_enabled") = true ∧
                  (installFinal env c fs).files (uiDstP env) = none)) from
                fun hx => hne hx.1)]
              have hnd : p ≠ defaultDstP env := by
                rw [hpc, defaultDstP_eq]
                exact ne_cfg_int hs1 hs2 _ _
              have hw1 : pathLe (addonsP env) p = false := by
                rw [hpc]
                exact pathLe_root_lit_false env.cfgRoot _ _ rfl
              have hw2 : pathLe (configsP env) p = false := by
                rw [hpc]
                exact pathLe_root_lit_false env.cfgRoot _ _ rfl
              rw [if_neg hnd,
                if_neg (fun hx => by rw [hw1] at hx; exact Bool.false_ne_true hx),
                if_neg (fun hx => by rw [hw2] at hx; exact Bool.false_ne_true hx),
                installFinal_files_char env c fs p hs1 hs2 hdef hlv hu hcas]
              unfold instResult
              rw [if_neg hA, if_neg hB, if_neg hC, if_neg hL,
                if_pos (And.intro hpc hcd)]
            · rw [if_neg (show ¬(p = caDstP env ∧ fs.files (caDstP env) = none) from
                fun hx => hpc hx.1)]
              exact instResult_stable_tail env c fs p hs1 hs2 htp1 htp2
                hdef hlv hu hcas hA hB hC hL (fun hx => hpc hx.1)
          · simp only [if_neg hcd]
            rw [if_neg (show ¬(p = caDstP env ∧ fs.files (caDstP env) = none) from
                fun hx => hcd hx.2),
              if_neg (show ¬(p = caDstP env ∧ fs.files (caDstP env) = none) from
                fun hx => hcd hx.2)]
            exact instResult_stable_tail env c fs p hs1 hs2 htp1 htp2
              hdef hlv hu hcas hA hB hC hL (fun hx => hcd hx.2)

/-- C6: Running the asset installer (configure_mui) twice in succession,
with no intervening modification of any file, produces a destination
file tree whose contents after the second run are identical to the
contents after the first run, at every location (installer idempotence).
Stated under the well-formedness side conditions of a normal
installation: the integration directory and the configuration root do
not contain one another, the rendered theme path is a nonempty relative
path not entering minimalist_ui, the configured language is the one
supported key English (GB), the four bundled source files exist, the two
bundled source directories exist, and the two guarded destinations are
not directories. -/
theorem c6_installer_idempotent (env : Env) (s : MuiState) (p : FPath)
    (hs1 : pathLe env.intDir env.cfgRoot = false)
    (hs2 : pathLe env.cfgRoot env.intDir = false)
    (htp1 : strToPath (pyFormat (s.configuration.getattr "theme_path") ++ "/") ≠ [])
    (htp2 : (strToPath (pyFormat (s.configuration.getattr "theme_path") ++ "/")).head? ≠
      some "minimalist_ui")
    (hlang : s.configuration.getattr "language" = PyVal.str "English (GB)")
    (hdef : (s.fs.files (defaultSrcP env)).isSome = true)
    (hlv : (s.fs.files (transSrcP env "en")).isSome = true)
    (hu : (s.fs.files (uiSrcP env)).isSome = true)
    (hcas : (s.fs.files (caSrcP env)).isSome = true)
    (hmt : s.fs.dirs (muiTemplSrcP env) = true)
    (hth : s.fs.dirs (themeSrcP env) = true)
    (hud : s.fs.dirs (uiDstP env) = false)
    (hcad : s.fs.dirs (caDstP env) = false) :
    (configure_mui env (configure_mui env s).2).2.fs.files p =
      (configure_mui env s).2.fs.files p := by
  have hf1 : (configure_mui env s).2.fs = installFinal env s.configuration s.fs := by
    rw [configure_mui_fs, installFS_success env s.configuration s.fs hs1 hs2 hlang
      hdef hlv hu hcas hmt hth hud hcad]
  have hc1 : (configure_mui env s).2.configuration = s.configuration :=
    configure_mui_configuration env s
  have hdef2 : ((installFinal env s.configuration s.fs).files
      (defaultSrcP env)).isSome = true := by
    rw [show (installFinal env s.configuration s.fs).files (defaultSrcP env) =
      s.fs.files (defaultSrcP env) from by
        rw [defaultSrcP_eq]
        exact installFinal_files_dash env s.configuration s.fs hs1 hs2 _]
    exact hdef
  have hlv2 : ((installFinal env s.configuration s.fs).files
      (transSrcP env "en")).isSome = true := by
    rw [show (installFinal env s.configuration s.fs).files (transSrcP env "en") =
      s.fs.files (transSrcP env "en") from
        installFinal_files_dash env s.configuration s.fs hs1 hs2 _]
    exact hlv
  have hu2 : ((installFinal env s.configuration s.fs).files
      (uiSrcP env)).isSome = true := by
    rw [show (installFinal env s.configuration s.fs).files (uiSrcP env) =
      s.fs.files (uiSrcP env) from by
        rw [uiSrcP_eq]
        exact installFinal_files_dash env s.configuration s.fs hs1 hs2 _]
    exact hu
  have hcas2 : ((installFinal env s.configuration s.fs).files
      (caSrcP env)).isSome = true := by
    rw [show (installFinal env s.configuration s.fs).files (caSrcP env) =
      s.fs.files (caSrcP env) from by
        rw [caSrcP_eq]
        exact installFinal_files_dash env s.configuration s.fs hs1 hs2 _]
    exact hcas
  have hmt2 : (installFinal env s.configuration s.fs).dirs (muiTemplSrcP env) = true :=
    installFinal_dirs_true env s.configuration s.fs (muiTemplSrcP env) hmt
      (pathLe_int_cfg_false hs1 hs2 _ _) (pathLe_int_cfg_false hs1 hs2 _ _)
      (pathLe_root_lit_false env.intDir _ _ rfl)
      (pathLe_cfg_int_false hs1 hs2 _ _) (pathLe_cfg_int_false hs1 hs2 _ _)
  have hth2 : (installFinal env s.configuration s.fs).dirs (themeSrcP env) = true :=
    installFinal_dirs_true env s.configuration s.fs (themeSrcP env) hth
      (pathLe_int_cfg_false hs1 hs2 _ _) (pathLe_int_cfg_false hs1 hs2 _ _)
      (pathLe_root_lit_false env.intDir _ _ rfl)
      (pathLe_cfg_int_false hs1 hs2 _ _) (pathLe_cfg_int_false hs1 hs2 _ _)
  have hthlu : pathLe (themeDstP env s.configuration) (uiDstP env) = false := by
    rw [uiDstP_eq]
    exact pathLe_theme_mui_false htp1 htp2 _ _
  have hud2 : (installFinal env s.configuration s.fs).dirs (uiDstP env) = false := by
    rw [installFinal_dirs_keep env s.configuration s.fs (uiDstP env)
      (pathLe_root_lit_false env.cfgRoot _ _ rfl)
      (pathLe_root_lit_false env.cfgRoot _ _ rfl)
      (pathLe_cfg_int_false hs1 hs2 _ _)
      (pathLe_root_lit_false env.cfgRoot _ _ rfl)
      (pathLe_root_lit_false env.cfgRoot _ _ rfl)
      (ne_cfg_int hs1 hs2 _ _) (pathLe_int_cfg_false hs1 hs2 _ _)
      (by rw [caTplDstP_eq]; exact ne_cfg_int hs1 hs2 _ _)
      (by rw [caTplDstP_eq]; exact pathLe_int_cfg_false hs1 hs2 _ _)
      (ne_of_pathLe_false hthlu) hthlu]
    exact hud
  have hthlc : pathLe (themeDstP env s.configuration) (caDstP env) = false := by
    rw [caDstP_eq]
    exact pathLe_theme_mui_false htp1 htp2 _ _
  have hcad2 : (installFinal env s.configuration s.fs).dirs (caDstP env) = false := by
    rw [installFinal_dirs_keep env s.configuration s.fs (caDstP env)
      (pathLe_root_lit_false env.cfgRoot _ _ rfl)
      (pathLe_root_lit_false env.cfgRoot _ _ rfl)
      (pathLe_cfg_int_false hs1 hs2 _ _)
      (pathLe_root_lit_false env.cfgRoot _ _ rfl)
      (pathLe_root_lit_false env.cfgRoot _ _ rfl)
      (ne_cfg_int hs1 hs2 _ _) (pathLe_int_cfg_false hs1 hs2 _ _)
      (by rw [caTplDstP_eq]; exact ne_cfg_int hs1 hs2 _ _)
      (by rw [caTplDstP_eq]; exact pathLe_int_cfg_false hs1 hs2 _ _)
      (ne_of_pathLe_false hthlc) hthlc]
    exact hcad
  have hf2 : (configure_mui env (configure_mui env s).2).2.fs =
      installFinal env s.configuration (installFinal env s.configuration s.fs) := by
    rw [configure_mui_fs, hc1, hf1,
      installFS_success env s.configuration (installFinal env s.configuration s.fs)
        hs1 hs2 hlang hdef2 hlv2 hu2 hcas2 hmt2 hth2 hud2 hcad2]
  rw [hf2, hf1,
    installFinal_files_char env s.configuration (installFinal env s.configuration s.fs)
      p hs1 hs2 hdef2 hlv2 hu2 hcas2,
    installFinal_files_char env s.configuration s.fs p hs1 hs2 hdef hlv hu hcas]
  exact instResult_stable env s.configuration s.fs p hs1 hs2 htp1 htp2 hdef hlv hu hcas

/-- Witness for C6: with the default configuration and the bundled
assets present, running the installer twice leaves the guarded
dashboard destination identical to the first run's result. -/
theorem c6_witness :
    (configure_mui envW (configure_mui envW stW).2).2.fs.files (uiDstP envW) =
      (configure_mui envW stW).2.fs.files (uiDstP envW) :=
  c6_installer_idempotent envW stW (uiDstP envW) rfl rfl (by decide) (by decide)
    rfl rfl rfl rfl rfl rfl rfl rfl rfl
